import Mathlib

/-!
# MapLoader: from a GlPortal XML map to a Scene

A shallow embedding of `source/engine/loader/MapLoader.cpp`.

* The TinyXML tree is a value: a node is an element (tag, attributes, child nodes) or
  another kind of node (comment, text, declaration), the latter keeping only its `Value()`.
  A `TiXmlElement*` is the element together with the siblings that follow it, which is
  what `NextSiblingElement` walks.
* The static members `MapLoader::scene` and `MapLoader::rootHandle` are the fields of an
  explicit `LoaderState` threaded through every extractor.  The state also records, in
  call order, the requests made to the texture and mesh loaders and the lines written to
  `cout`.
* An extractor yields an `Outcome`: the state it leaves behind and, when it does not
  return, how it failed (`std::runtime_error` thrown, or a null `TiXmlElement*` used).
* `XmlHelper`, `TextureLoader`, `MeshLoader`, `Environment` and the conversion TinyXML
  applies to a float attribute are not part of the translated file; they are the fields of
  `Shim`.
* Floats are only stored, never computed with; they are rationals here.
-/

namespace glPortal

set_option linter.unusedVariables false

/-! ## TinyXML -/

/-- A node of the parsed document. `other` stands for every kind of node that is not an
element (comment, text, declaration, unknown); `value` is what `Value()` returns. -/
inductive TiXmlNode where
  | element (value : String) (attributes : List (String × String)) (children : List TiXmlNode)
  | other (value : String)

/-- The `Value()` of a node: the tag of an element, the text of a comment or text node. -/
def TiXmlNode.Value : TiXmlNode → String
  | .element v _ _ => v
  | .other v => v

/-- A non-null `TiXmlNode*`: the node and the siblings that follow it. -/
structure NodePtr where
  node : TiXmlNode
  following : List TiXmlNode

/-- A non-null `TiXmlElement*`: the element and the siblings that follow it. -/
structure TiXmlElement where
  value : String
  attributes : List (String × String)
  children : List TiXmlNode
  following : List TiXmlNode

/-- `TiXmlNode::ToElement` / `TiXmlHandle::Element`: null unless the node is an element. -/
def NodePtr.ToElement (p : NodePtr) : Option TiXmlElement :=
  match p.node with
  | .element v as cs => some ⟨v, as, cs, p.following⟩
  | .other _ => none

/-- `TiXmlNode::FirstChild(const char* value)` on a list of child nodes: the first child
whose `Value()` equals `value`, whatever its kind. -/
def FirstChild (value : String) : List TiXmlNode → Option NodePtr
  | [] => none
  | n :: rest => if n.Value = value then some ⟨n, rest⟩ else FirstChild value rest

/-- `TiXmlNode::FirstChildElement(const char* value)` on a list of child nodes (and
`NextSiblingElement(value)` on a list of following siblings): the first node that is an
element and whose tag equals `value`. -/
def FirstChildElement (value : String) : List TiXmlNode → Option TiXmlElement
  | [] => none
  | .element v as cs :: rest =>
      if v = value then some ⟨v, as, cs, rest⟩ else FirstChildElement value rest
  | .other _ :: rest => FirstChildElement value rest

/-- `TiXmlNode::FirstChildElement()` / `NextSiblingElement()` without a name: the first
node that is an element. -/
def FirstElement : List TiXmlNode → Option TiXmlElement
  | [] => none
  | .element v as cs :: rest => some ⟨v, as, cs, rest⟩
  | .other _ :: rest => FirstElement rest

theorem FirstChildElement_following (value : String) :
    ∀ (l : List TiXmlNode) (e : TiXmlElement),
      FirstChildElement value l = some e → e.following.length < l.length
  | [], _, h => by simp [FirstChildElement] at h
  | .element v as cs :: rest, e, h => by
      by_cases hv : v = value
      · simp [FirstChildElement, hv] at h
        subst h
        simp
      · simp only [FirstChildElement, hv, if_false] at h
        have := FirstChildElement_following value rest e h
        simp only [List.length_cons]
        omega
  | .other _ :: rest, e, h => by
      simp only [FirstChildElement] at h
      have := FirstChildElement_following value rest e h
      simp only [List.length_cons]
      omega

theorem FirstElement_following :
    ∀ (l : List TiXmlNode) (e : TiXmlElement),
      FirstElement l = some e → e.following.length < l.length
  | [], _, h => by simp [FirstElement] at h
  | .element v as cs :: rest, e, h => by
      simp [FirstElement] at h
      subst h
      simp
  | .other _ :: rest, e, h => by
      simp only [FirstElement] at h
      have := FirstElement_following rest e h
      simp only [List.length_cons]
      omega

/-- `TiXmlElement::NextSiblingElement(const char*)`. -/
def TiXmlElement.NextSiblingElement (e : TiXmlElement) (value : String) : Option TiXmlElement :=
  FirstChildElement value e.following

/-- `TiXmlElement::NextSiblingElement()`. -/
def TiXmlElement.NextSiblingElementAny (e : TiXmlElement) : Option TiXmlElement :=
  FirstElement e.following

/-- `TiXmlElement::Attribute(name)`: the value of the first attribute called `name`. -/
def Attribute (name : String) : List (String × String) → Option String
  | [] => none
  | (k, v) :: rest => if k = name then some v else Attribute name rest

/-- `TiXmlElement::QueryStringAttribute(name, &target)`: `target` is overwritten when the
attribute exists and left alone otherwise. -/
def TiXmlElement.QueryStringAttribute (e : TiXmlElement) (name : String) (target : String) :
    String :=
  match Attribute name e.attributes with
  | some v => v
  | none => target

/-- `TiXmlHandle`: a possibly null element pointer; every navigation on a null handle
gives a null handle. -/
abbrev TiXmlHandle := Option TiXmlElement

/-- `handle.FirstChild(value).Element()`. -/
def TiXmlHandle.FirstChildAsElement (h : TiXmlHandle) (value : String) : Option TiXmlElement :=
  match h with
  | none => none
  | some root =>
    match FirstChild value root.children with
    | none => none
    | some p => p.ToElement

/-- `TiXmlDocument`: the top-level nodes of a file that loaded. -/
abbrev TiXmlDocument := List TiXmlNode

/-! ## Scene data -/

/-- Three floats; the default constructor gives the zero vector. -/
structure Vector3f where
  x : ℚ := 0
  y : ℚ := 0
  z : ℚ := 0
  deriving DecidableEq, Repr

/-- Texture handle with its two tiling factors. -/
structure Texture where
  handle : Nat := 0
  xTiling : ℚ := 1
  yTiling : ℚ := 1
  deriving DecidableEq, Repr

/-- Mesh handle. -/
structure Mesh where
  handle : Nat := 0
  deriving DecidableEq, Repr

/-- Modelled from the spec: `Entity.hpp` is not among the sources; the fields and their
defaults follow the data model (zero position and rotation, unit scale). -/
structure Entity where
  position : Vector3f := {}
  rotation : Vector3f := {}
  scale : Vector3f := ⟨1, 1, 1⟩
  texture : Texture := {}
  mesh : Mesh := {}
  deriving DecidableEq, Repr

/-- Modelled from the spec: `Trigger.hpp` is not among the sources; a trigger is an entity
with a `type` string. -/
structure Trigger extends Entity where
  type : String := ""
  deriving DecidableEq, Repr

/-- Modelled from the spec: `Light.hpp` is not among the sources; position and color. -/
structure Light where
  position : Vector3f := {}
  color : Vector3f := {}
  deriving DecidableEq, Repr

/-- Modelled from the spec: `Scene.hpp` is not among the sources; `new Scene()` is the
default value. The player is an entity (`extractPositionAndRotation` takes it as one). -/
structure Scene where
  player : Entity := {}
  «end» : Entity := {}
  lights : List Light := []
  walls : List Entity := []
  triggers : List Trigger := []
  models : List Entity := []
  deriving DecidableEq, Repr

/-! ## Collaborators -/

/-- The collaborators of the loader. All are deterministic functions of their arguments.
`QueryFloatValue` is the conversion `QueryFloatAttribute` applies to an attribute's text
(`none` for `TIXML_WRONG_TYPE`). The two `XmlHelper` functions write through a reference:
they take the old value and give the new one. -/
structure Shim where
  getDataDir : String
  LoadFile : String → Option TiXmlDocument
  QueryFloatValue : String → Option ℚ
  extractPositionAndRotation : TiXmlElement → Entity → Entity
  pushAttributeVertexToVector : Option TiXmlElement → Vector3f → Vector3f
  getTexture : String → Texture
  getMesh : String → Mesh
  getPortalBox : Entity → Mesh

/-- `TiXmlElement::QueryFloatAttribute(name, &target)`: `target` is overwritten when the
attribute exists and converts, and left alone otherwise. -/
def QueryFloatAttribute (sh : Shim) (e : TiXmlElement) (name : String) (target : ℚ) : ℚ :=
  match Attribute name e.attributes with
  | none => target
  | some s =>
    match sh.QueryFloatValue s with
    | some v => v
    | none => target

/-! ## Loader state and outcomes -/

/-- A call made to the texture or mesh loader. -/
inductive Request where
  | texture (identifier : String)
  | mesh (identifier : String)
  | portalBox (entity : Entity)
  deriving DecidableEq, Repr

/-- The static members of `MapLoader`, with the record of loader requests and of the
lines printed. -/
structure LoaderState where
  scene : Scene
  rootHandle : TiXmlHandle
  requests : List Request
  output : List String

/-- How an extractor can fail to return. -/
inductive Failure where
  | runtime_error (what : String)
  | nullDereference
  deriving DecidableEq, Repr

/-- The state an extractor leaves and the failure that stopped it, if any. -/
structure Outcome where
  state : LoaderState
  failure : Option Failure

/-- Sequencing of two statements: the second runs only if the first returned. -/
def Outcome.andThen (o : Outcome) (f : LoaderState → Outcome) : Outcome :=
  match o.failure with
  | none => f o.state
  | some _ => o

/-- Records a call to the texture or mesh loader. -/
def LoaderState.requested (st : LoaderState) (r : Request) : LoaderState :=
  { st with requests := st.requests ++ [r] }

/-! ## The extractors -/

/-- `MapLoader::extractSpawn`. -/
def extractSpawn (sh : Shim) (st : LoaderState) : Outcome :=
  match TiXmlHandle.FirstChildAsElement st.rootHandle "spawn" with
  | some spawnElement =>
    ⟨{ st with scene := { st.scene with
        player := sh.extractPositionAndRotation spawnElement st.scene.player } }, none⟩
  | none => ⟨st, some (.runtime_error "No spawn position defined.")⟩

/-- `MapLoader::extractDoor`. -/
def extractDoor (sh : Shim) (st : LoaderState) : Outcome :=
  match TiXmlHandle.FirstChildAsElement st.rootHandle "end" with
  | some endElement =>
    let door : Entity := {}
    let door := sh.extractPositionAndRotation endElement door
    let st := st.requested (.texture "Door.png")
    let door := { door with texture := sh.getTexture "Door.png" }
    let st := st.requested (.mesh "Door.obj")
    let door := { door with mesh := sh.getMesh "Door.obj" }
    ⟨{ st with scene := { st.scene with «end» := door } }, none⟩
  | none => ⟨st, some (.runtime_error "No end position defined.")⟩

/-- The `do ... while` of `MapLoader::extractLights`, entered with a non-null
`lightElement`; `lightPos` and `lightColor` are the two locals declared before the loop. -/
def lightsLoop (sh : Shim) (lightElement : TiXmlElement) (lightPos lightColor : Vector3f)
    (st : LoaderState) : LoaderState :=
  let lightPos := sh.pushAttributeVertexToVector (some lightElement) lightPos
  let lightColor := { lightColor with x := QueryFloatAttribute sh lightElement "r" lightColor.x }
  let lightColor := { lightColor with y := QueryFloatAttribute sh lightElement "g" lightColor.y }
  let lightColor := { lightColor with z := QueryFloatAttribute sh lightElement "b" lightColor.z }
  let light : Light := {}
  let light := { light with position := ⟨lightPos.x, lightPos.y, lightPos.z⟩ }
  let light := { light with color := ⟨lightColor.x, lightColor.y, lightColor.z⟩ }
  let st := { st with scene := { st.scene with lights := st.scene.lights ++ [light] } }
  match h : lightElement.NextSiblingElement "light" with
  | some next => lightsLoop sh next lightPos lightColor st
  | none => st
termination_by lightElement.following.length
decreasing_by exact FirstChildElement_following _ _ _ h

/-- `MapLoader::extractLights`. The loop body runs before any test of `lightElement`:
with a null pointer the helper is called on it and then `lightElement->QueryFloatAttribute`
dereferences it. -/
def extractLights (sh : Shim) (st : LoaderState) : Outcome :=
  let lightPos : Vector3f := {}
  let lightColor : Vector3f := {}
  match TiXmlHandle.FirstChildAsElement st.rootHandle "light" with
  | some lightElement => ⟨lightsLoop sh lightElement lightPos lightColor st, none⟩
  | none => ⟨st, some .nullDereference⟩

/-- The inner `do ... while` of `MapLoader::extractWalls` over the "wall" elements of one
texture group. -/
def wallsLoop (sh : Shim) (texturePath : String) (wallBoxElement : TiXmlElement)
    (st : LoaderState) : LoaderState :=
  let wall : Entity := {}
  let boxPositionElement := FirstChildElement "position" wallBoxElement.children
  let wall := { wall with
    position := sh.pushAttributeVertexToVector boxPositionElement wall.position }
  let boxScaleElement := FirstChildElement "scale" wallBoxElement.children
  let wall := { wall with scale := sh.pushAttributeVertexToVector boxScaleElement wall.scale }
  let st := st.requested (.texture texturePath)
  let wall := { wall with texture := sh.getTexture texturePath }
  let wall := { wall with texture := { wall.texture with xTiling := 1 / 2 } }
  let wall := { wall with texture := { wall.texture with yTiling := 1 / 2 } }
  let st := st.requested (.portalBox wall)
  let wall := { wall with mesh := sh.getPortalBox wall }
  let st := { st with scene := { st.scene with walls := st.scene.walls ++ [wall] } }
  match h : wallBoxElement.NextSiblingElement "wall" with
  | some next => wallsLoop sh texturePath next st
  | none => st
termination_by wallBoxElement.following.length
decreasing_by exact FirstChildElement_following _ _ _ h

/-- The outer `do ... while` of `MapLoader::extractWalls` over the "texture" elements;
`texturePath` and `surfaceType` are the two locals declared before the loop. -/
def texturesLoop (sh : Shim) (textureElement : TiXmlElement) (texturePath surfaceType : String)
    (st : LoaderState) : LoaderState :=
  let texturePath := textureElement.QueryStringAttribute "source" texturePath
  let surfaceType := textureElement.QueryStringAttribute "type" surfaceType
  let st :=
    match FirstChildElement "wall" textureElement.children with
    | some wallBoxElement => wallsLoop sh texturePath wallBoxElement st
    | none => st
  let texturePath := "none"
  match h : textureElement.NextSiblingElement "texture" with
  | some next => texturesLoop sh next texturePath surfaceType st
  | none => st
termination_by textureElement.following.length
decreasing_by exact FirstChildElement_following _ _ _ h

/-- `MapLoader::extractWalls`. -/
def extractWalls (sh : Shim) (st : LoaderState) : Outcome :=
  match TiXmlHandle.FirstChildAsElement st.rootHandle "texture" with
  | some textureElement => ⟨texturesLoop sh textureElement "none" "none" st, none⟩
  | none => ⟨st, none⟩

/-- The `do ... while` of `MapLoader::extractTriggers`; `triggerType` is the local declared
before the loop, which no statement assigns. -/
def triggersLoop (sh : Shim) (triggerType : String) (triggerElement : TiXmlElement)
    (st : LoaderState) : Outcome :=
  let trigger : Trigger := {}
  let trigger := { trigger with type := triggerElement.QueryStringAttribute "type" trigger.type }
  if triggerType = "none" then
    ⟨st, some (.runtime_error "Trigger must define a type attribute.")⟩
  else
    let trigger := { trigger with
      position := sh.pushAttributeVertexToVector
        (FirstChildElement "position" triggerElement.children) trigger.position }
    let trigger := { trigger with
      scale := sh.pushAttributeVertexToVector
        (FirstChildElement "scale" triggerElement.children) trigger.scale }
    let st := st.requested (.texture "redBox.png")
    let trigger := { trigger with texture := sh.getTexture "redBox.png" }
    let st := st.requested (.portalBox trigger.toEntity)
    let trigger := { trigger with mesh := sh.getPortalBox trigger.toEntity }
    let st := { st with scene := { st.scene with triggers := st.scene.triggers ++ [trigger] } }
    match h : triggerElement.NextSiblingElementAny with
    | some next => triggersLoop sh triggerType next st
    | none => ⟨st, none⟩
termination_by triggerElement.following.length
decreasing_by exact FirstElement_following _ _ h

/-- `MapLoader::extractTriggers`. -/
def extractTriggers (sh : Shim) (st : LoaderState) : Outcome :=
  let triggerType := "none"
  match TiXmlHandle.FirstChildAsElement st.rootHandle "trigger" with
  | some triggerElement => triggersLoop sh triggerType triggerElement st
  | none => ⟨st, none⟩

/-- The `do ... while` of `MapLoader::extractModels`; `modelPos`, `texture` and `mesh` are
the locals declared before the loop. -/
def modelsLoop (sh : Shim) (modelElement : TiXmlElement) (modelPos : Vector3f)
    (texture mesh : String) (st : LoaderState) : LoaderState :=
  let texture := modelElement.QueryStringAttribute "texture" texture
  let mesh := modelElement.QueryStringAttribute "mesh" mesh
  let modelPos := sh.pushAttributeVertexToVector (some modelElement) modelPos
  let model : Entity := {}
  let model := sh.extractPositionAndRotation modelElement model
  let st := st.requested (.texture texture)
  let model := { model with texture := sh.getTexture texture }
  let st := st.requested (.mesh mesh)
  let model := { model with mesh := sh.getMesh mesh }
  let st := { st with scene := { st.scene with models := st.scene.models ++ [model] } }
  match h : modelElement.NextSiblingElement "model" with
  | some next => modelsLoop sh next modelPos texture mesh st
  | none => st
termination_by modelElement.following.length
decreasing_by exact FirstChildElement_following _ _ _ h

/-- `MapLoader::extractModels`. -/
def extractModels (sh : Shim) (st : LoaderState) : Outcome :=
  match TiXmlHandle.FirstChildAsElement st.rootHandle "model" with
  | some modelElement => ⟨modelsLoop sh modelElement {} "none" "none" st, none⟩
  | none => ⟨st, none⟩

/-- A line written to `cout`. -/
def LoaderState.print (st : LoaderState) (line : String) : LoaderState :=
  { st with output := st.output ++ [line] }

/-- `MapLoader::getScene(path)`, started with the static members as `st` holds them. When
`failure` is `none` the call returns the pointer `scene`, that is `state.scene`. -/
def getScene (sh : Shim) (path : String) (st : LoaderState) : Outcome :=
  let st := { st with scene := ({} : Scene) }
  match sh.LoadFile (sh.getDataDir ++ path) with
  | some doc =>
    let element := FirstElement doc
    let st := { st with rootHandle := element }
    ((((((extractSpawn sh st).andThen (extractDoor sh)).andThen (extractModels sh)).andThen
      (extractLights sh)).andThen (extractWalls sh)).andThen (extractTriggers sh)).andThen
      fun st => ⟨st.print "File loaded.", none⟩
  | none =>
    ⟨(st.print "Unable to load file. ").print (sh.getDataDir ++ path), none⟩

/-- The `Scene*` a call hands to its caller: present only when the call returned. -/
def Outcome.returned (o : Outcome) : Option Scene :=
  match o.failure with
  | none => some o.state.scene
  | some _ => none

/-! ## Sibling chains -/

/-- The elements called `value` in a list of nodes, in order, each with its following
siblings: the chain that repeated `NextSiblingElement(value)` visits. -/
def elementsNamed (value : String) : List TiXmlNode → List TiXmlElement
  | [] => []
  | .element v as cs :: rest =>
      if v = value then ⟨v, as, cs, rest⟩ :: elementsNamed value rest
      else elementsNamed value rest
  | .other _ :: rest => elementsNamed value rest

/-- All the elements in a list of nodes, in order: the chain that repeated
`NextSiblingElement()` visits. -/
def elementsAny : List TiXmlNode → List TiXmlElement
  | [] => []
  | .element v as cs :: rest => ⟨v, as, cs, rest⟩ :: elementsAny rest
  | .other _ :: rest => elementsAny rest

/-- The lights built by the loop of `extractLights` over a chain of elements, from the
values the locals `lightPos` and `lightColor` hold on entry. -/
def lightsOf (sh : Shim) : List TiXmlElement → Vector3f → Vector3f → List Light
  | [], _, _ => []
  | e :: es, lightPos, lightColor =>
    let lightPos := sh.pushAttributeVertexToVector (some e) lightPos
    let lightColor : Vector3f :=
      ⟨QueryFloatAttribute sh e "r" lightColor.x, QueryFloatAttribute sh e "g" lightColor.y,
        QueryFloatAttribute sh e "b" lightColor.z⟩
    ⟨lightPos, lightColor⟩ :: lightsOf sh es lightPos lightColor

/-! ## Lemmas on navigation -/

theorem FirstChildElement_none_iff (value : String) :
    ∀ l : List TiXmlNode, FirstChildElement value l = none ↔ elementsNamed value l = []
  | [] => by simp [FirstChildElement, elementsNamed]
  | .element v as cs :: rest => by
      by_cases hv : v = value
      · simp [FirstChildElement, elementsNamed, hv]
      · simp [FirstChildElement, elementsNamed, hv, FirstChildElement_none_iff value rest]
  | .other _ :: rest => by
      simp [FirstChildElement, elementsNamed, FirstChildElement_none_iff value rest]

theorem FirstChildElement_some (value : String) :
    ∀ (l : List TiXmlNode) (e : TiXmlElement), FirstChildElement value l = some e →
      elementsNamed value l = e :: elementsNamed value e.following
  | [], _, h => by simp [FirstChildElement] at h
  | .element v as cs :: rest, e, h => by
      by_cases hv : v = value
      · simp [FirstChildElement, hv] at h
        subst h
        simp [elementsNamed, hv]
      · simp only [FirstChildElement, hv, if_false] at h
        simp [elementsNamed, hv, FirstChildElement_some value rest e h]
  | .other _ :: rest, e, h => by
      simp only [FirstChildElement] at h
      simp [elementsNamed, FirstChildElement_some value rest e h]

theorem FirstElement_none_iff :
    ∀ l : List TiXmlNode, FirstElement l = none ↔ elementsAny l = []
  | [] => by simp [FirstElement, elementsAny]
  | .element v as cs :: rest => by simp [FirstElement, elementsAny]
  | .other _ :: rest => by simp [FirstElement, elementsAny, FirstElement_none_iff rest]

theorem FirstElement_some :
    ∀ (l : List TiXmlNode) (e : TiXmlElement), FirstElement l = some e →
      elementsAny l = e :: elementsAny e.following
  | [], _, h => by simp [FirstElement] at h
  | .element v as cs :: rest, e, h => by
      simp [FirstElement] at h
      subst h
      simp [elementsAny]
  | .other _ :: rest, e, h => by
      simp only [FirstElement] at h
      simp [elementsAny, FirstElement_some rest e h]

/-- When the first node called `value` is an element, it is the first element called
`value`. -/
theorem FirstChild_ToElement (value : String) :
    ∀ (l : List TiXmlNode) (p : NodePtr) (e : TiXmlElement),
      FirstChild value l = some p → p.ToElement = some e → FirstChildElement value l = some e
  | [], _, _, h, _ => by simp [FirstChild] at h
  | n :: rest, p, e, h, he => by
      cases n with
      | element v as cs =>
        by_cases hv : v = value
        · simp [FirstChild, TiXmlNode.Value, hv] at h
          subst h
          simp [NodePtr.ToElement] at he
          subst he
          simp [FirstChildElement, hv]
        · simp only [FirstChild, TiXmlNode.Value, hv, if_false] at h
          simp [FirstChildElement, hv, FirstChild_ToElement value rest p e h he]
      | other v =>
        by_cases hv : v = value
        · simp [FirstChild, TiXmlNode.Value, hv] at h
          subst h
          simp [NodePtr.ToElement] at he
        · simp only [FirstChild, TiXmlNode.Value, hv, if_false] at h
          simp [FirstChildElement, FirstChild_ToElement value rest p e h he]

/-- The element a handle lookup finds is the first child element of that name. -/
theorem FirstChildAsElement_some (root e : TiXmlElement) (value : String)
    (h : TiXmlHandle.FirstChildAsElement (some root) value = some e) :
    FirstChildElement value root.children = some e := by
  simp only [TiXmlHandle.FirstChildAsElement] at h
  cases hp : FirstChild value root.children with
  | none => simp [hp] at h
  | some p =>
    simp only [hp] at h
    exact FirstChild_ToElement value _ p e hp h

/-- With no child element of that name a handle lookup finds nothing. -/
theorem FirstChildAsElement_none (h : TiXmlHandle) (value : String)
    (hno : ∀ root, h = some root → FirstChildElement value root.children = none) :
    TiXmlHandle.FirstChildAsElement h value = none := by
  cases h with
  | none => rfl
  | some root =>
    cases he : TiXmlHandle.FirstChildAsElement (some root) value with
    | none => rfl
    | some e =>
      have := FirstChildAsElement_some root e value he
      rw [hno root rfl] at this
      cases this

/-! ## The loops as folds over their chains -/

theorem lightsLoop_eq (sh : Shim) :
    ∀ (n : Nat) (e : TiXmlElement) (lightPos lightColor : Vector3f) (st : LoaderState),
      e.following.length = n →
      lightsLoop sh e lightPos lightColor st =
        { st with scene := { st.scene with
            lights := st.scene.lights ++
              lightsOf sh (e :: elementsNamed "light" e.following) lightPos lightColor } } := by
  intro n
  induction n using Nat.strong_induction_on with
  | _ n ih =>
    intro e lightPos lightColor st hn
    rw [lightsLoop]
    split
    · next next h =>
      have hlt := FirstChildElement_following _ _ _ h
      rw [ih _ (by omega) next _ _ _ rfl]
      rw [FirstChildElement_some _ _ _ h]
      simp [lightsOf]
    · next h =>
      rw [(FirstChildElement_none_iff _ _).mp h]
      simp [lightsOf]


/-- The wall entity as the loop body of `extractWalls` has it just before
`MeshLoader::getPortalBox(wall)` is called: position, scale and texture set. -/
def wallBeforeMesh (sh : Shim) (texturePath : String) (w : TiXmlElement) : Entity :=
  { position := sh.pushAttributeVertexToVector (FirstChildElement "position" w.children)
      ({} : Entity).position
    scale := sh.pushAttributeVertexToVector (FirstChildElement "scale" w.children)
      ({} : Entity).scale
    texture := { sh.getTexture texturePath with xTiling := 1 / 2, yTiling := 1 / 2 } }

/-- The wall entity the loop body of `extractWalls` pushes for the element `w`. -/
def wallEntity (sh : Shim) (texturePath : String) (w : TiXmlElement) : Entity :=
  { wallBeforeMesh sh texturePath w with
    mesh := sh.getPortalBox (wallBeforeMesh sh texturePath w) }

/-- The loader requests one pass of the wall loop body makes. -/
def wallRequests (sh : Shim) (texturePath : String) (w : TiXmlElement) : List Request :=
  [.texture texturePath, .portalBox (wallBeforeMesh sh texturePath w)]

/-- The walls of one texture group, for the value `texturePath` holds when the group is
reached. -/
def groupWalls (sh : Shim) (texturePath : String) (g : TiXmlElement) : List Entity :=
  (elementsNamed "wall" g.children).map
    (wallEntity sh (g.QueryStringAttribute "source" texturePath))

/-- The loader requests made for one texture group. -/
def groupRequests (sh : Shim) (texturePath : String) (g : TiXmlElement) : List Request :=
  (elementsNamed "wall" g.children).flatMap
    (wallRequests sh (g.QueryStringAttribute "source" texturePath))

theorem wallsLoop_eq (sh : Shim) (texturePath : String) :
    ∀ (n : Nat) (w : TiXmlElement) (st : LoaderState), w.following.length = n →
      wallsLoop sh texturePath w st =
        { st with
          scene := { st.scene with
            walls := st.scene.walls ++
              (w :: elementsNamed "wall" w.following).map (wallEntity sh texturePath) }
          requests := st.requests ++
            (w :: elementsNamed "wall" w.following).flatMap (wallRequests sh texturePath) } := by
  intro n
  induction n using Nat.strong_induction_on with
  | _ n ih =>
    intro w st hn
    rw [wallsLoop]
    split
    · next next h =>
      have hlt := FirstChildElement_following _ _ _ h
      rw [ih _ (by omega) next _ rfl]
      rw [FirstChildElement_some _ _ _ h]
      simp [wallEntity, wallBeforeMesh, wallRequests, LoaderState.requested]
    · next h =>
      rw [(FirstChildElement_none_iff _ _).mp h]
      simp [wallEntity, wallBeforeMesh, wallRequests, LoaderState.requested]

/-- The walls pass over one group, whether or not it has a "wall" child. -/
theorem group_eq (sh : Shim) (texturePath : String) (g : TiXmlElement) (st : LoaderState) :
    (match FirstChildElement "wall" g.children with
      | some wallBoxElement =>
          wallsLoop sh (g.QueryStringAttribute "source" texturePath) wallBoxElement st
      | none => st) =
      { st with
        scene := { st.scene with walls := st.scene.walls ++ groupWalls sh texturePath g }
        requests := st.requests ++ groupRequests sh texturePath g } := by
  cases h : FirstChildElement "wall" g.children with
  | none =>
    simp [groupWalls, groupRequests, (FirstChildElement_none_iff _ _).mp h]
  | some w =>
    simp only []
    rw [wallsLoop_eq sh _ _ w st rfl]
    simp [groupWalls, groupRequests, FirstChildElement_some _ _ _ h]

/-- The walls of a chain of texture groups; `texturePath` is the value on entry of the
first group, every later group is entered with "none". -/
def wallsOfGroups (sh : Shim) : List TiXmlElement → String → List Entity
  | [], _ => []
  | g :: gs, texturePath => groupWalls sh texturePath g ++ wallsOfGroups sh gs "none"

/-- The loader requests made over a chain of texture groups. -/
def requestsOfGroups (sh : Shim) : List TiXmlElement → String → List Request
  | [], _ => []
  | g :: gs, texturePath => groupRequests sh texturePath g ++ requestsOfGroups sh gs "none"

theorem texturesLoop_eq (sh : Shim) :
    ∀ (n : Nat) (g : TiXmlElement) (texturePath surfaceType : String) (st : LoaderState),
      g.following.length = n →
      texturesLoop sh g texturePath surfaceType st =
        { st with
          scene := { st.scene with
            walls := st.scene.walls ++
              wallsOfGroups sh (g :: elementsNamed "texture" g.following) texturePath }
          requests := st.requests ++
            requestsOfGroups sh (g :: elementsNamed "texture" g.following) texturePath } := by
  intro n
  induction n using Nat.strong_induction_on with
  | _ n ih =>
    intro g texturePath surfaceType st hn
    rw [texturesLoop]
    simp only [group_eq]
    split
    · next next h =>
      have hlt := FirstChildElement_following _ _ _ h
      rw [ih _ (by omega) next _ _ _ rfl]
      rw [FirstChildElement_some _ _ _ h]
      simp [wallsOfGroups, requestsOfGroups]
    · next h =>
      rw [(FirstChildElement_none_iff _ _).mp h]
      simp [wallsOfGroups, requestsOfGroups]

theorem wallsOfGroups_none (sh : Shim) :
    ∀ gs : List TiXmlElement,
      wallsOfGroups sh gs "none" = gs.flatMap (groupWalls sh "none")
  | [] => rfl
  | g :: gs => by simp [wallsOfGroups, wallsOfGroups_none sh gs]


/-- The models built by the loop of `extractModels` over a chain of elements, from the
values the locals `texture` and `mesh` hold on entry. -/
def modelsOf (sh : Shim) : List TiXmlElement → String → String → List Entity
  | [], _, _ => []
  | e :: es, texture, mesh =>
    let texture := e.QueryStringAttribute "texture" texture
    let mesh := e.QueryStringAttribute "mesh" mesh
    { sh.extractPositionAndRotation e {} with
      texture := sh.getTexture texture, mesh := sh.getMesh mesh } ::
      modelsOf sh es texture mesh

/-- The loader requests made by the loop of `extractModels` over a chain of elements. -/
def modelRequestsOf : List TiXmlElement → String → String → List Request
  | [], _, _ => []
  | e :: es, texture, mesh =>
    let texture := e.QueryStringAttribute "texture" texture
    let mesh := e.QueryStringAttribute "mesh" mesh
    .texture texture :: .mesh mesh :: modelRequestsOf es texture mesh

theorem modelsLoop_eq (sh : Shim) :
    ∀ (n : Nat) (e : TiXmlElement) (modelPos : Vector3f) (texture mesh : String)
      (st : LoaderState), e.following.length = n →
      modelsLoop sh e modelPos texture mesh st =
        { st with
          scene := { st.scene with
            models := st.scene.models ++
              modelsOf sh (e :: elementsNamed "model" e.following) texture mesh }
          requests := st.requests ++
            modelRequestsOf (e :: elementsNamed "model" e.following) texture mesh } := by
  intro n
  induction n using Nat.strong_induction_on with
  | _ n ih =>
    intro e modelPos texture mesh st hn
    rw [modelsLoop]
    split
    · next next h =>
      have hlt := FirstChildElement_following _ _ _ h
      rw [ih _ (by omega) next _ _ _ _ rfl]
      rw [FirstChildElement_some _ _ _ h]
      simp [modelsOf, modelRequestsOf, LoaderState.requested]
    · next h =>
      rw [(FirstChildElement_none_iff _ _).mp h]
      simp [modelsOf, modelRequestsOf, LoaderState.requested]

/-- Entered from `extractTriggers`, where `triggerType` is "none", the trigger loop throws
in its first pass, before anything is requested or pushed. -/
theorem triggersLoop_none (sh : Shim) (e : TiXmlElement) (st : LoaderState) :
    triggersLoop sh "none" e st =
      ⟨st, some (.runtime_error "Trigger must define a type attribute.")⟩ := by
  rw [triggersLoop]
  simp

/-! ## Each extractor as a function of what its lookup finds -/

theorem extractSpawn_some (sh : Shim) (st : LoaderState) (e : TiXmlElement)
    (h : TiXmlHandle.FirstChildAsElement st.rootHandle "spawn" = some e) :
    extractSpawn sh st =
      ⟨{ st with scene := { st.scene with
          player := sh.extractPositionAndRotation e st.scene.player } }, none⟩ := by
  simp [extractSpawn, h]

theorem extractSpawn_none (sh : Shim) (st : LoaderState)
    (h : TiXmlHandle.FirstChildAsElement st.rootHandle "spawn" = none) :
    extractSpawn sh st = ⟨st, some (.runtime_error "No spawn position defined.")⟩ := by
  simp [extractSpawn, h]

theorem extractDoor_some (sh : Shim) (st : LoaderState) (e : TiXmlElement)
    (h : TiXmlHandle.FirstChildAsElement st.rootHandle "end" = some e) :
    extractDoor sh st =
      ⟨{ st with
          scene := { st.scene with
            «end» := { sh.extractPositionAndRotation e {} with
              texture := sh.getTexture "Door.png", mesh := sh.getMesh "Door.obj" } }
          requests := st.requests ++ [.texture "Door.png", .mesh "Door.obj"] }, none⟩ := by
  simp [extractDoor, h, LoaderState.requested]

theorem extractDoor_none (sh : Shim) (st : LoaderState)
    (h : TiXmlHandle.FirstChildAsElement st.rootHandle "end" = none) :
    extractDoor sh st = ⟨st, some (.runtime_error "No end position defined.")⟩ := by
  simp [extractDoor, h]

theorem extractLights_some (sh : Shim) (st : LoaderState) (e : TiXmlElement)
    (h : TiXmlHandle.FirstChildAsElement st.rootHandle "light" = some e) :
    extractLights sh st =
      ⟨{ st with scene := { st.scene with
          lights := st.scene.lights ++
            lightsOf sh (e :: elementsNamed "light" e.following) {} {} } }, none⟩ := by
  simp [extractLights, h, lightsLoop_eq sh _ e _ _ st rfl]

theorem extractLights_none (sh : Shim) (st : LoaderState)
    (h : TiXmlHandle.FirstChildAsElement st.rootHandle "light" = none) :
    extractLights sh st = ⟨st, some .nullDereference⟩ := by
  simp [extractLights, h]

theorem extractWalls_some (sh : Shim) (st : LoaderState) (g : TiXmlElement)
    (h : TiXmlHandle.FirstChildAsElement st.rootHandle "texture" = some g) :
    extractWalls sh st =
      ⟨{ st with
          scene := { st.scene with
            walls := st.scene.walls ++
              wallsOfGroups sh (g :: elementsNamed "texture" g.following) "none" }
          requests := st.requests ++
            requestsOfGroups sh (g :: elementsNamed "texture" g.following) "none" }, none⟩ := by
  simp [extractWalls, h, texturesLoop_eq sh _ g _ _ st rfl]

theorem extractWalls_none (sh : Shim) (st : LoaderState)
    (h : TiXmlHandle.FirstChildAsElement st.rootHandle "texture" = none) :
    extractWalls sh st = ⟨st, none⟩ := by
  simp [extractWalls, h]

theorem extractWalls_failure (sh : Shim) (st : LoaderState) :
    (extractWalls sh st).failure = none := by
  unfold extractWalls
  split <;> rfl

theorem extractTriggers_some (sh : Shim) (st : LoaderState) (e : TiXmlElement)
    (h : TiXmlHandle.FirstChildAsElement st.rootHandle "trigger" = some e) :
    extractTriggers sh st =
      ⟨st, some (.runtime_error "Trigger must define a type attribute.")⟩ := by
  simp [extractTriggers, h, triggersLoop_none]

theorem extractTriggers_none (sh : Shim) (st : LoaderState)
    (h : TiXmlHandle.FirstChildAsElement st.rootHandle "trigger" = none) :
    extractTriggers sh st = ⟨st, none⟩ := by
  simp [extractTriggers, h]


/-- The models `extractModels` pushes for a root handle. -/
def modelsFound (sh : Shim) (h : TiXmlHandle) : List Entity :=
  match TiXmlHandle.FirstChildAsElement h "model" with
  | some m => modelsOf sh (m :: elementsNamed "model" m.following) "none" "none"
  | none => []

/-- The loader requests `extractModels` makes for a root handle. -/
def modelRequestsFound (h : TiXmlHandle) : List Request :=
  match TiXmlHandle.FirstChildAsElement h "model" with
  | some m => modelRequestsOf (m :: elementsNamed "model" m.following) "none" "none"
  | none => []

/-- The walls `extractWalls` pushes for a root handle. -/
def wallsFound (sh : Shim) (h : TiXmlHandle) : List Entity :=
  match TiXmlHandle.FirstChildAsElement h "texture" with
  | some g => wallsOfGroups sh (g :: elementsNamed "texture" g.following) "none"
  | none => []

/-- The loader requests `extractWalls` makes for a root handle. -/
def wallRequestsFound (sh : Shim) (h : TiXmlHandle) : List Request :=
  match TiXmlHandle.FirstChildAsElement h "texture" with
  | some g => requestsOfGroups sh (g :: elementsNamed "texture" g.following) "none"
  | none => []

theorem extractModels_eq (sh : Shim) (st : LoaderState) :
    extractModels sh st =
      ⟨{ st with
          scene := { st.scene with models := st.scene.models ++ modelsFound sh st.rootHandle }
          requests := st.requests ++ modelRequestsFound st.rootHandle }, none⟩ := by
  unfold extractModels modelsFound modelRequestsFound
  split
  · next m h => simp [h, modelsLoop_eq sh _ m _ _ _ st rfl]
  · next h => simp [h]

theorem extractWalls_eq (sh : Shim) (st : LoaderState) :
    extractWalls sh st =
      ⟨{ st with
          scene := { st.scene with walls := st.scene.walls ++ wallsFound sh st.rootHandle }
          requests := st.requests ++ wallRequestsFound sh st.rootHandle }, none⟩ := by
  unfold wallsFound wallRequestsFound
  cases h : TiXmlHandle.FirstChildAsElement st.rootHandle "texture" with
  | none => simp [extractWalls_none sh st h]
  | some g => simp [extractWalls_some sh st g h]

/-- The state `getScene` has reached when `extractWalls` has returned, for a document
whose root is `root` and where the spawn, end and light lookups found `s`, `e` and `l`. -/
def afterWalls (sh : Shim) (st : LoaderState) (root : TiXmlHandle) (s e l : TiXmlElement) :
    LoaderState :=
  { scene :=
      { player := sh.extractPositionAndRotation s {}
        «end» := { sh.extractPositionAndRotation e {} with
          texture := sh.getTexture "Door.png", mesh := sh.getMesh "Door.obj" }
        lights := lightsOf sh (l :: elementsNamed "light" l.following) {} {}
        walls := wallsFound sh root
        triggers := []
        models := modelsFound sh root }
    rootHandle := root
    requests := st.requests ++ [.texture "Door.png", .mesh "Door.obj"] ++
      modelRequestsFound root ++ wallRequestsFound sh root
    output := st.output }

/-- On a document that loads and whose spawn, end and light lookups succeed, `getScene`
reaches `extractTriggers` in the state `afterWalls`. -/
theorem getScene_to_triggers (sh : Shim) (path : String) (st : LoaderState)
    (doc : TiXmlDocument) (s e l : TiXmlElement)
    (hload : sh.LoadFile (sh.getDataDir ++ path) = some doc)
    (hs : TiXmlHandle.FirstChildAsElement (FirstElement doc) "spawn" = some s)
    (he : TiXmlHandle.FirstChildAsElement (FirstElement doc) "end" = some e)
    (hl : TiXmlHandle.FirstChildAsElement (FirstElement doc) "light" = some l) :
    getScene sh path st =
      (extractTriggers sh (afterWalls sh st (FirstElement doc) s e l)).andThen
        fun st => ⟨st.print "File loaded.", none⟩ := by
  unfold getScene
  simp only [hload]
  rw [extractSpawn_some sh _ s (by simpa using hs)]
  simp only [Outcome.andThen]
  rw [extractDoor_some sh _ e (by simpa using he)]
  simp only [extractModels_eq]
  rw [extractLights_some sh _ l (by simpa using hl)]
  simp only [extractWalls_eq]
  simp [afterWalls]


theorem getScene_spawn_missing (sh : Shim) (path : String) (st : LoaderState)
    (doc : TiXmlDocument) (hload : sh.LoadFile (sh.getDataDir ++ path) = some doc)
    (hs : TiXmlHandle.FirstChildAsElement (FirstElement doc) "spawn" = none) :
    getScene sh path st =
      ⟨{ st with scene := {}, rootHandle := FirstElement doc },
        some (.runtime_error "No spawn position defined.")⟩ := by
  unfold getScene
  simp only [hload]
  rw [extractSpawn_none sh _ (by simpa using hs)]
  rfl

/-- On a document that loads and whose spawn, end, light and trigger lookups all succeed,
`getScene` throws the trigger error in the state `afterWalls`. -/
theorem getScene_trigger_found (sh : Shim) (path : String) (st : LoaderState)
    (doc : TiXmlDocument) (s e l t : TiXmlElement)
    (hload : sh.LoadFile (sh.getDataDir ++ path) = some doc)
    (hs : TiXmlHandle.FirstChildAsElement (FirstElement doc) "spawn" = some s)
    (he : TiXmlHandle.FirstChildAsElement (FirstElement doc) "end" = some e)
    (hl : TiXmlHandle.FirstChildAsElement (FirstElement doc) "light" = some l)
    (ht : TiXmlHandle.FirstChildAsElement (FirstElement doc) "trigger" = some t) :
    getScene sh path st =
      ⟨afterWalls sh st (FirstElement doc) s e l,
        some (.runtime_error "Trigger must define a type attribute.")⟩ := by
  rw [getScene_to_triggers sh path st doc s e l hload hs he hl]
  rw [extractTriggers_some sh _ t (by simpa [afterWalls] using ht)]
  rfl

theorem getScene_not_loaded (sh : Shim) (path : String) (st : LoaderState)
    (hload : sh.LoadFile (sh.getDataDir ++ path) = none) :
    getScene sh path st =
      ⟨{ st with
          scene := {}
          output := st.output ++ ["Unable to load file. ", sh.getDataDir ++ path] }, none⟩ := by
  unfold getScene
  simp [hload, LoaderState.print]

/-! ## Sample collaborators and maps -/

/-- A float conversion that knows a few literals. -/
def sampleFloat (s : String) : Option ℚ :=
  if s = "0" then some 0 else if s = "1" then some 1 else if s = "2" then some 2
  else if s = "3" then some 3 else if s = "0.5" then some (1 / 2) else none

/-- Reads `name` as a float from an attribute list, keeping `target` when it is missing or
does not convert. -/
def sampleQuery (as : List (String × String)) (name : String) (target : ℚ) : ℚ :=
  match Attribute name as with
  | none => target
  | some s => (sampleFloat s).getD target

/-- Reads x, y, z from an attribute list into a vector. -/
def sampleVertex (as : List (String × String)) (v : Vector3f) : Vector3f :=
  ⟨sampleQuery as "x" v.x, sampleQuery as "y" v.y, sampleQuery as "z" v.z⟩

/-- A map without spawn, after a leading comment. -/
def noSpawnDoc : TiXmlDocument :=
  [.other "a map without spawn",
    .element "map" [] [.element "end" [("x", "1")] [], .element "light" [("r", "1")] []]]

/-- A map with spawn, end and one light. -/
def plainDoc : TiXmlDocument :=
  [.element "map" []
    [.element "spawn" [("x", "1"), ("y", "2"), ("z", "3")] [],
     .element "end" [("x", "3")] [],
     .element "light" [("x", "1"), ("r", "1"), ("g", "0.5"), ("b", "0")] []]]

/-- A map with spawn, end, one light and a trigger that has no `type` attribute. -/
def untypedTriggerDoc : TiXmlDocument :=
  [.element "map" []
    [.element "spawn" [("x", "1")] [],
     .element "end" [("x", "3")] [],
     .element "light" [("r", "1"), ("g", "1"), ("b", "1")] [],
     .element "trigger" [] [.element "position" [("x", "1")] [],
       .element "scale" [("x", "2")] []]]]

/-- The maps on the sample disk. -/
def sampleDisk (file : String) : Option TiXmlDocument :=
  if file = "data/no_spawn.xml" then some noSpawnDoc
  else if file = "data/plain.xml" then some plainDoc
  else if file = "data/untyped_trigger.xml" then some untypedTriggerDoc
  else none

/-- Collaborators over the sample disk: textures and meshes are numbered by the length of
their identifier, every box mesh has handle 7. -/
def sampleShim : Shim where
  getDataDir := "data/"
  LoadFile := sampleDisk
  QueryFloatValue := sampleFloat
  extractPositionAndRotation := fun e entity =>
    { entity with position := sampleVertex e.attributes entity.position }
  pushAttributeVertexToVector := fun e v =>
    match e with
    | some e => sampleVertex e.attributes v
    | none => v
  getTexture := fun identifier => { handle := identifier.length }
  getMesh := fun identifier => { handle := identifier.length }
  getPortalBox := fun _ => { handle := 7 }

/-- Static members as a previous load may have left them. -/
def staleState : LoaderState :=
  { scene := { lights := [{}] }, rootHandle := none, requests := [], output := [] }

/-- A root whose "end" element comes after a comment reading "end". -/
def commentedEndRoot : TiXmlElement :=
  ⟨"map", [], [.other "end", .element "end" [("x", "1")] []], []⟩

/-! ## Claims -/

/-- C1: when the document loads and its root has no "spawn" child element (or there is no
root element at all), `getScene` throws "No spawn position defined." and does not return;
at that point the scene is still the fresh `Scene` (no door, model, light, wall or trigger)
and no request has been made to the texture or mesh loaders. -/
theorem getScene_without_spawn (sh : Shim) (path : String) (st : LoaderState)
    (doc : TiXmlDocument) (hload : sh.LoadFile (sh.getDataDir ++ path) = some doc)
    (hspawn : ∀ root, FirstElement doc = some root →
      FirstChildElement "spawn" root.children = none) :
    (getScene sh path st).failure = some (.runtime_error "No spawn position defined.") ∧
    (getScene sh path st).returned = none ∧
    (getScene sh path st).state.scene = {} ∧
    (getScene sh path st).state.requests = st.requests := by
  rw [getScene_spawn_missing sh path st doc hload (FirstChildAsElement_none _ _ hspawn)]
  exact ⟨rfl, rfl, rfl, rfl⟩

theorem getScene_without_spawn_witness :
    sampleShim.LoadFile (sampleShim.getDataDir ++ "no_spawn.xml") = some noSpawnDoc ∧
    (∀ root, FirstElement noSpawnDoc = some root →
      FirstChildElement "spawn" root.children = none) ∧
    (getScene sampleShim "no_spawn.xml" staleState).failure =
      some (.runtime_error "No spawn position defined.") ∧
    (getScene sampleShim "no_spawn.xml" staleState).returned = none ∧
    (getScene sampleShim "no_spawn.xml" staleState).state.scene = {} ∧
    (getScene sampleShim "no_spawn.xml" staleState).state.requests = staleState.requests :=
  have hspawn : ∀ root, FirstElement noSpawnDoc = some root →
      FirstChildElement "spawn" root.children = none := by
    intro root h
    simp only [noSpawnDoc, FirstElement, Option.some.injEq] at h
    subst h
    rfl
  ⟨rfl, hspawn, getScene_without_spawn sampleShim "no_spawn.xml" staleState noSpawnDoc rfl hspawn⟩


/-- C2, as stated, fails: the root `commentedEndRoot` has an "end" child element, yet
`extractDoor` throws "No end position defined." because the first child node whose value is
"end" is a comment. -/
theorem extractDoor_comment_named_end :
    FirstChildElement "end" commentedEndRoot.children = some ⟨"end", [("x", "1")], [], []⟩ ∧
    (extractDoor sampleShim { staleState with rootHandle := some commentedEndRoot }).failure =
      some (.runtime_error "No end position defined.") :=
  ⟨rfl, rfl⟩

/-- C2 (amended): `extractDoor` throws "No end position defined." if and only if the lookup
`rootHandle.FirstChild("end").Element()` is null, that is when the root is absent, has no
child node whose value is "end", or the first such node is not an element; in particular it
throws whenever the root has no "end" child element. When the lookup finds an element, it
is the first "end" child element, the call returns, and `scene.end` is the entity that
`extractPositionAndRotation` gives for that element on a fresh `Entity`, with texture
`getTexture("Door.png")` and mesh `getMesh("Door.obj")`, the two identifiers being
constants. -/
theorem extractDoor_spec (sh : Shim) (st : LoaderState) :
    ((extractDoor sh st).failure = some (.runtime_error "No end position defined.") ↔
      TiXmlHandle.FirstChildAsElement st.rootHandle "end" = none) ∧
    ((∀ root, st.rootHandle = some root → FirstChildElement "end" root.children = none) →
      (extractDoor sh st).failure = some (.runtime_error "No end position defined.")) ∧
    (∀ e, TiXmlHandle.FirstChildAsElement st.rootHandle "end" = some e →
      (∀ root, st.rootHandle = some root → FirstChildElement "end" root.children = some e) ∧
      (extractDoor sh st).failure = none ∧
      (extractDoor sh st).state.scene.«end».position =
        (sh.extractPositionAndRotation e {}).position ∧
      (extractDoor sh st).state.scene.«end».rotation =
        (sh.extractPositionAndRotation e {}).rotation ∧
      (extractDoor sh st).state.scene.«end».texture = sh.getTexture "Door.png" ∧
      (extractDoor sh st).state.scene.«end».mesh = sh.getMesh "Door.obj" ∧
      (extractDoor sh st).state.scene.«end» =
        { sh.extractPositionAndRotation e {} with
          texture := sh.getTexture "Door.png", mesh := sh.getMesh "Door.obj" }) := by
  refine ⟨?_, ?_, ?_⟩
  · cases h : TiXmlHandle.FirstChildAsElement st.rootHandle "end" with
    | none => simp [extractDoor_none sh st h]
    | some e => simp [extractDoor_some sh st e h]
  · intro hno
    rw [extractDoor_none sh st (FirstChildAsElement_none _ _ hno)]
  · intro e h
    refine ⟨?_, ?_⟩
    · intro root hroot
      rw [hroot] at h
      exact FirstChildAsElement_some root e "end" h
    · rw [extractDoor_some sh st e h]
      exact ⟨rfl, rfl, rfl, rfl, rfl, rfl⟩

theorem extractDoor_spec_witness :
    TiXmlHandle.FirstChildAsElement (FirstElement plainDoc) "end" =
      some ⟨"end", [("x", "3")], [],
        [.element "light" [("x", "1"), ("r", "1"), ("g", "0.5"), ("b", "0")] []]⟩ ∧
    (extractDoor sampleShim { staleState with rootHandle := FirstElement plainDoc }).failure =
      none ∧
    (extractDoor sampleShim
      { staleState with rootHandle := FirstElement plainDoc }).state.scene.«end».texture =
      sampleShim.getTexture "Door.png" ∧
    (extractDoor sampleShim
      { staleState with rootHandle := FirstElement plainDoc }).state.scene.«end».mesh =
      sampleShim.getMesh "Door.obj" :=
  have h := (extractDoor_spec sampleShim
    { staleState with rootHandle := FirstElement plainDoc }).2.2 _ rfl
  ⟨rfl, h.2.1, h.2.2.2.2.1, h.2.2.2.2.2.1⟩

/-- C3, as stated, fails: `untypedTriggerDoc` loads and its root has a "spawn" and an "end"
element, yet `getScene` does not return: it throws the trigger error. -/
theorem getScene_untyped_trigger_throws :
    sampleShim.LoadFile (sampleShim.getDataDir ++ "untyped_trigger.xml") =
      some untypedTriggerDoc ∧
    (∃ root s e, FirstElement untypedTriggerDoc = some root ∧
      FirstChildElement "spawn" root.children = some s ∧
      FirstChildElement "end" root.children = some e) ∧
    (getScene sampleShim "untyped_trigger.xml" staleState).failure =
      some (.runtime_error "Trigger must define a type attribute.") ∧
    (getScene sampleShim "untyped_trigger.xml" staleState).returned = none := by
  refine ⟨rfl, ⟨_, _, _, rfl, rfl, rfl⟩, ?_⟩
  rw [getScene_trigger_found sampleShim "untyped_trigger.xml" staleState untypedTriggerDoc
    _ _ _ _ rfl rfl rfl rfl rfl]
  exact ⟨rfl, rfl⟩

/-- C3 (amended): when the document loads, the first child nodes of its root whose values
are "spawn", "end" and "light" are elements, and the root has no "trigger" child element,
`getScene` returns a Scene whose player is what `extractPositionAndRotation` gives for the
spawn element on the fresh player, and whose end entity has the position and rotation that
`extractPositionAndRotation` gives for the end element on a fresh entity. -/
theorem getScene_player_and_end (sh : Shim) (path : String) (st : LoaderState)
    (doc : TiXmlDocument) (s e l : TiXmlElement)
    (hload : sh.LoadFile (sh.getDataDir ++ path) = some doc)
    (hs : TiXmlHandle.FirstChildAsElement (FirstElement doc) "spawn" = some s)
    (he : TiXmlHandle.FirstChildAsElement (FirstElement doc) "end" = some e)
    (hl : TiXmlHandle.FirstChildAsElement (FirstElement doc) "light" = some l)
    (ht : ∀ root, FirstElement doc = some root →
      FirstChildElement "trigger" root.children = none) :
    (getScene sh path st).failure = none ∧
    ∃ scene, (getScene sh path st).returned = some scene ∧
      scene.player = sh.extractPositionAndRotation s {} ∧
      scene.«end».position = (sh.extractPositionAndRotation e {}).position ∧
      scene.«end».rotation = (sh.extractPositionAndRotation e {}).rotation := by
  rw [getScene_to_triggers sh path st doc s e l hload hs he hl]
  rw [extractTriggers_none sh _ (FirstChildAsElement_none _ _ ht)]
  exact ⟨rfl, _, rfl, rfl, rfl, rfl⟩

theorem getScene_player_and_end_witness :
    sampleShim.LoadFile (sampleShim.getDataDir ++ "plain.xml") = some plainDoc ∧
    TiXmlHandle.FirstChildAsElement (FirstElement plainDoc) "spawn" =
      some ⟨"spawn", [("x", "1"), ("y", "2"), ("z", "3")], [],
        [.element "end" [("x", "3")] [],
         .element "light" [("x", "1"), ("r", "1"), ("g", "0.5"), ("b", "0")] []]⟩ ∧
    TiXmlHandle.FirstChildAsElement (FirstElement plainDoc) "end" =
      some ⟨"end", [("x", "3")], [],
        [.element "light" [("x", "1"), ("r", "1"), ("g", "0.5"), ("b", "0")] []]⟩ ∧
    TiXmlHandle.FirstChildAsElement (FirstElement plainDoc) "light" =
      some ⟨"light", [("x", "1"), ("r", "1"), ("g", "0.5"), ("b", "0")], [], []⟩ ∧
    (∀ root, FirstElement plainDoc = some root →
      FirstChildElement "trigger" root.children = none) ∧
    (getScene sampleShim "plain.xml" staleState).failure = none ∧
    ∃ scene, (getScene sampleShim "plain.xml" staleState).returned = some scene ∧
      scene.player = sampleShim.extractPositionAndRotation
        ⟨"spawn", [("x", "1"), ("y", "2"), ("z", "3")], [],
          [.element "end" [("x", "3")] [],
           .element "light" [("x", "1"), ("r", "1"), ("g", "0.5"), ("b", "0")] []]⟩ {} ∧
      scene.«end».position = (sampleShim.extractPositionAndRotation
        ⟨"end", [("x", "3")], [],
          [.element "light" [("x", "1"), ("r", "1"), ("g", "0.5"), ("b", "0")] []]⟩
        {}).position ∧
      scene.«end».rotation = (sampleShim.extractPositionAndRotation
        ⟨"end", [("x", "3")], [],
          [.element "light" [("x", "1"), ("r", "1"), ("g", "0.5"), ("b", "0")] []]⟩
        {}).rotation :=
  have ht : ∀ root, FirstElement plainDoc = some root →
      FirstChildElement "trigger" root.children = none := by
    intro root h
    simp only [plainDoc, FirstElement, Option.some.injEq] at h
    subst h
    rfl
  ⟨rfl, rfl, rfl, rfl, ht,
    getScene_player_and_end sampleShim "plain.xml" staleState plainDoc _ _ _ rfl rfl rfl rfl ht⟩

/-- C4, as stated, fails: "missing.xml" cannot be loaded, and `getScene` returns, handing
its caller the empty Scene. -/
theorem getScene_missing_file_returns :
    sampleShim.LoadFile (sampleShim.getDataDir ++ "missing.xml") = none ∧
    (getScene sampleShim "missing.xml" staleState).failure = none ∧
    (getScene sampleShim "missing.xml" staleState).returned = some {} := by
  have hload : sampleShim.LoadFile (sampleShim.getDataDir ++ "missing.xml") = none := rfl
  rw [getScene_not_loaded sampleShim "missing.xml" staleState hload]
  exact ⟨hload, rfl, rfl⟩

/-- C4 (amended): when the document cannot be loaded, `getScene` writes "Unable to load
file. " and the path to `cout`, runs no extractor (nothing is requested from the loaders,
the root handle is left as it was) and returns the fresh, empty Scene to its caller; no
failure is raised. -/
theorem getScene_unreadable (sh : Shim) (path : String) (st : LoaderState)
    (hload : sh.LoadFile (sh.getDataDir ++ path) = none) :
    (getScene sh path st).failure = none ∧
    (getScene sh path st).returned = some {} ∧
    (getScene sh path st).state.output =
      st.output ++ ["Unable to load file. ", sh.getDataDir ++ path] ∧
    (getScene sh path st).state.requests = st.requests ∧
    (getScene sh path st).state.rootHandle = st.rootHandle := by
  rw [getScene_not_loaded sh path st hload]
  exact ⟨rfl, rfl, rfl, rfl, rfl⟩

theorem getScene_unreadable_witness :
    sampleShim.LoadFile (sampleShim.getDataDir ++ "absent.xml") = none ∧
    (getScene sampleShim "absent.xml" staleState).failure = none ∧
    (getScene sampleShim "absent.xml" staleState).returned = some {} ∧
    (getScene sampleShim "absent.xml" staleState).state.output =
      staleState.output ++ ["Unable to load file. ", sampleShim.getDataDir ++ "absent.xml"] ∧
    (getScene sampleShim "absent.xml" staleState).state.requests = staleState.requests ∧
    (getScene sampleShim "absent.xml" staleState).state.rootHandle = staleState.rootHandle :=
  ⟨rfl, getScene_unreadable sampleShim "absent.xml" staleState rfl⟩


/-- The node is an element whose tag is `value`. -/
def TiXmlNode.isElementNamed (value : String) : TiXmlNode → Bool
  | .element v _ _ => decide (v = value)
  | .other _ => false

theorem elementsNamed_length (value : String) :
    ∀ l : List TiXmlNode,
      (elementsNamed value l).length = l.countP (TiXmlNode.isElementNamed value)
  | [] => rfl
  | .element v as cs :: rest => by
      by_cases hv : v = value
      · simp [elementsNamed, TiXmlNode.isElementNamed, hv, elementsNamed_length value rest]
      · simp [elementsNamed, TiXmlNode.isElementNamed, hv, elementsNamed_length value rest]
  | .other _ :: rest => by
      simp [elementsNamed, TiXmlNode.isElementNamed, elementsNamed_length value rest]

/-- The texture groups `extractWalls` goes through for a root handle: none when the lookup
of the first one is null, else the element found and every later "texture" sibling. -/
def texturesProcessed (h : TiXmlHandle) : List TiXmlElement :=
  match TiXmlHandle.FirstChildAsElement h "texture" with
  | some g => g :: elementsNamed "texture" g.following
  | none => []

theorem wallsFound_eq (sh : Shim) (h : TiXmlHandle) :
    wallsFound sh h = (texturesProcessed h).flatMap (groupWalls sh "none") := by
  unfold wallsFound texturesProcessed
  split
  · exact wallsOfGroups_none sh _
  · rfl

/-- When the lookup of the first texture group finds an element, the groups gone through
are all the "texture" child elements of the root. -/
theorem texturesProcessed_some (root g : TiXmlElement)
    (h : TiXmlHandle.FirstChildAsElement (some root) "texture" = some g) :
    texturesProcessed (some root) = elementsNamed "texture" root.children := by
  rw [FirstChildElement_some _ _ _ (FirstChildAsElement_some root g "texture" h)]
  simp [texturesProcessed, h]

/-- A root whose first texture group comes after a comment reading "texture". -/
def commentedTextureRoot : TiXmlElement :=
  ⟨"map", [],
    [.other "texture",
     .element "texture" [("source", "wall.png")]
       [.element "wall" [] [.element "position" [("x", "1")] [],
          .element "scale" [("x", "2")] []]]], []⟩

/-- A root with a light in between three texture groups: the first has two walls around a
stray element, the second has no `source` and one wall, the third has no wall. -/
def threeGroupsRoot : TiXmlElement :=
  ⟨"map", [],
    [.element "texture" [("source", "wall.png"), ("type", "portalable")]
       [.element "wall" [] [.element "position" [("x", "1")] [],
          .element "scale" [("x", "2")] []],
        .element "note" [] [],
        .element "wall" [] [.element "position" [("x", "3")] []]],
     .element "light" [("r", "1")] [],
     .element "texture" []
       [.element "wall" [] [.element "scale" [("y", "2")] []]],
     .element "texture" [("source", "tiles.png")] []], []⟩

/-- C5, as stated, fails: the root `commentedTextureRoot` has one texture group with one
"wall" child, yet `extractWalls` appends nothing, because the first child node whose value
is "texture" is a comment. -/
theorem extractWalls_comment_named_texture :
    (elementsNamed "texture" commentedTextureRoot.children).map
      (fun g => (elementsNamed "wall" g.children).length) = [1] ∧
    (extractWalls sampleShim
      { staleState with rootHandle := some commentedTextureRoot }).state.scene.walls =
      staleState.scene.walls := by
  refine ⟨rfl, ?_⟩
  rw [extractWalls_none sampleShim
    { staleState with rootHandle := some commentedTextureRoot } rfl]

/-- C5 (amended): for every root, `extractWalls` never fails. When the lookup
`rootHandle.FirstChild("texture").Element()` is null (no root, no child node whose value is
"texture", or the first such node is not an element) it appends nothing. When it finds an
element, `extractWalls` appends to `scene.walls` exactly one Entity per "wall" child of each
root-level "texture" element, groups in document order and walls in order within their
group, other nodes skipped; the number appended is the sum over the texture groups of their
number of "wall" children, so a group with no "wall" child contributes nothing. -/
theorem extractWalls_spec (sh : Shim) (st : LoaderState) :
    (extractWalls sh st).failure = none ∧
    (TiXmlHandle.FirstChildAsElement st.rootHandle "texture" = none →
      (extractWalls sh st).state.scene.walls = st.scene.walls) ∧
    (∀ root g, st.rootHandle = some root →
      TiXmlHandle.FirstChildAsElement (some root) "texture" = some g →
      ∃ appended, (extractWalls sh st).state.scene.walls = st.scene.walls ++ appended ∧
        appended = (elementsNamed "texture" root.children).flatMap (fun g =>
          (elementsNamed "wall" g.children).map
            (wallEntity sh (g.QueryStringAttribute "source" "none"))) ∧
        appended.length = ((elementsNamed "texture" root.children).map (fun g =>
          g.children.countP (TiXmlNode.isElementNamed "wall"))).sum) := by
  refine ⟨extractWalls_failure sh st, ?_, ?_⟩
  · intro h
    rw [extractWalls_none sh st h]
  · intro root g hroot hg
    refine ⟨_, ?_, rfl, ?_⟩
    · rw [extractWalls_eq, wallsFound_eq, hroot, texturesProcessed_some root g hg]
      rfl
    · rw [List.length_flatMap]
      congr 1
      apply List.map_congr_left
      intro g _
      simp [elementsNamed_length]

theorem extractWalls_spec_witness :
    TiXmlHandle.FirstChildAsElement (some threeGroupsRoot) "texture" =
      (elementsNamed "texture" threeGroupsRoot.children).head? ∧
    (elementsNamed "texture" threeGroupsRoot.children).map
      (fun g => g.children.countP (TiXmlNode.isElementNamed "wall")) = [2, 1, 0] ∧
    ∃ appended,
      (extractWalls sampleShim
        { staleState with rootHandle := some threeGroupsRoot }).state.scene.walls =
        staleState.scene.walls ++ appended ∧
      appended = (elementsNamed "texture" threeGroupsRoot.children).flatMap (fun g =>
          (elementsNamed "wall" g.children).map
            (wallEntity sampleShim (g.QueryStringAttribute "source" "none"))) ∧
      appended.length = ((elementsNamed "texture" threeGroupsRoot.children).map (fun g =>
          g.children.countP (TiXmlNode.isElementNamed "wall"))).sum :=
  ⟨rfl, rfl,
    (extractWalls_spec sampleShim { staleState with rootHandle := some threeGroupsRoot }).2.2
      threeGroupsRoot _ rfl rfl⟩


theorem texturesProcessed_mem (h : TiXmlHandle) (g : TiXmlElement)
    (hg : g ∈ texturesProcessed h) :
    ∃ root, h = some root ∧ g ∈ elementsNamed "texture" root.children := by
  cases h with
  | none => simp [texturesProcessed, TiXmlHandle.FirstChildAsElement] at hg
  | some root =>
    cases hl : TiXmlHandle.FirstChildAsElement (some root) "texture" with
    | none => simp [texturesProcessed, hl] at hg
    | some g0 =>
      rw [texturesProcessed_some root g0 hl] at hg
      exact ⟨root, rfl, hg⟩

/-- C6: every Entity that `extractWalls` appends comes from a "wall" child `w` of a
root-level "texture" element `g`; its texture is `getTexture(s)` with both tiling factors
overwritten to 0.5, where `s` is the `source` attribute of `g` ("none" when `g` has none);
its position and scale are read from the "position" and "scale" children of `w`; and its
mesh is `getPortalBox` applied to the entity as it stands once position, scale and texture
are set, the mesh still being the default one. -/
theorem extractWalls_texture_and_mesh (sh : Shim) (st : LoaderState) :
    ∃ appended, (extractWalls sh st).state.scene.walls = st.scene.walls ++ appended ∧
      ∀ wall ∈ appended, ∃ root g w, st.rootHandle = some root ∧
        g ∈ elementsNamed "texture" root.children ∧ w ∈ elementsNamed "wall" g.children ∧
        wall.texture = { sh.getTexture (g.QueryStringAttribute "source" "none") with
          xTiling := 1 / 2, yTiling := 1 / 2 } ∧
        (∀ s, Attribute "source" g.attributes = some s →
          wall.texture = { sh.getTexture s with xTiling := 1 / 2, yTiling := 1 / 2 }) ∧
        wall.texture.xTiling = 1 / 2 ∧ wall.texture.yTiling = 1 / 2 ∧
        wall.position = sh.pushAttributeVertexToVector
          (FirstChildElement "position" w.children) ({} : Entity).position ∧
        wall.scale = sh.pushAttributeVertexToVector
          (FirstChildElement "scale" w.children) ({} : Entity).scale ∧
        wall.mesh = sh.getPortalBox { wall with mesh := ({} : Entity).mesh } := by
  refine ⟨wallsFound sh st.rootHandle, ?_, ?_⟩
  · rw [extractWalls_eq]
  · intro wall hwall
    rw [wallsFound_eq, List.mem_flatMap] at hwall
    obtain ⟨g, hg, hwall⟩ := hwall
    obtain ⟨root, hroot, hg⟩ := texturesProcessed_mem _ g hg
    simp only [groupWalls, List.mem_map] at hwall
    obtain ⟨w, hw, rfl⟩ := hwall
    refine ⟨root, g, w, hroot, hg, hw, rfl, ?_, rfl, rfl, rfl, rfl, rfl⟩
    intro s hs
    simp [wallEntity, wallBeforeMesh, TiXmlElement.QueryStringAttribute, hs]

theorem extractWalls_texture_and_mesh_witness :
    ∃ appended,
      (extractWalls sampleShim
        { staleState with rootHandle := some threeGroupsRoot }).state.scene.walls =
        staleState.scene.walls ++ appended ∧
      appended.length = 3 ∧
      ∀ wall ∈ appended, wall.texture.xTiling = 1 / 2 ∧ wall.texture.yTiling = 1 / 2 ∧
        wall.mesh = sampleShim.getPortalBox { wall with mesh := ({} : Entity).mesh } := by
  obtain ⟨appended, happ, hall⟩ := extractWalls_texture_and_mesh sampleShim
    { staleState with rootHandle := some threeGroupsRoot }
  refine ⟨appended, happ, ?_, ?_⟩
  · rw [extractWalls_eq] at happ
    have h := List.append_cancel_left happ
    rw [← h]
    rfl
  · intro wall hwall
    obtain ⟨_, _, _, _, _, _, _, _, hx, hy, _, _, hmesh⟩ := hall wall hwall
    exact ⟨hx, hy, hmesh⟩

/-- C7: the default texture source does not leak. When `extractWalls` goes through the
texture groups of a root (its first lookup finds an element) and `g` is any of them, coming
after the groups `pre` and before the groups `post`, and `g` has no `source` attribute,
then the walls appended for `g`, between those of `pre` and those of `post`, are built with
the identifier "none": their texture is `getTexture("none")` with tiling 0.5, whatever the
`source` attributes of the groups in `pre`. -/
theorem extractWalls_default_source (sh : Shim) (st : LoaderState)
    (root g0 g : TiXmlElement) (pre post : List TiXmlElement)
    (hroot : st.rootHandle = some root)
    (hfirst : TiXmlHandle.FirstChildAsElement (some root) "texture" = some g0)
    (hsplit : elementsNamed "texture" root.children = pre ++ g :: post)
    (hsource : Attribute "source" g.attributes = none) :
    (extractWalls sh st).state.scene.walls =
      st.scene.walls ++
        pre.flatMap (fun g => (elementsNamed "wall" g.children).map
          (wallEntity sh (g.QueryStringAttribute "source" "none"))) ++
        (elementsNamed "wall" g.children).map (wallEntity sh "none") ++
        post.flatMap (fun g => (elementsNamed "wall" g.children).map
          (wallEntity sh (g.QueryStringAttribute "source" "none"))) ∧
    ∀ w, (wallEntity sh "none" w).texture =
      { sh.getTexture "none" with xTiling := 1 / 2, yTiling := 1 / 2 } := by
  refine ⟨?_, fun w => rfl⟩
  rw [extractWalls_eq, wallsFound_eq, hroot, texturesProcessed_some root g0 hfirst, hsplit]
  have hg : groupWalls sh "none" g = (elementsNamed "wall" g.children).map
      (wallEntity sh "none") := by
    simp [groupWalls, TiXmlElement.QueryStringAttribute, hsource]
  simp only [List.flatMap_append, List.flatMap_cons, hg, List.append_assoc]
  rfl

theorem extractWalls_default_source_witness :
    TiXmlHandle.FirstChildAsElement (some threeGroupsRoot) "texture" =
      (elementsNamed "texture" threeGroupsRoot.children).head? ∧
    (elementsNamed "texture" threeGroupsRoot.children).map
      (fun g => Attribute "source" g.attributes) = [some "wall.png", none, some "tiles.png"] ∧
    ∃ pre g post, elementsNamed "texture" threeGroupsRoot.children = pre ++ g :: post ∧
      pre.length = 1 ∧
      (extractWalls sampleShim
        { staleState with rootHandle := some threeGroupsRoot }).state.scene.walls =
        staleState.scene.walls ++
          pre.flatMap (fun g => (elementsNamed "wall" g.children).map
            (wallEntity sampleShim (g.QueryStringAttribute "source" "none"))) ++
          (elementsNamed "wall" g.children).map (wallEntity sampleShim "none") ++
          post.flatMap (fun g => (elementsNamed "wall" g.children).map
            (wallEntity sampleShim (g.QueryStringAttribute "source" "none"))) ∧
      ∀ w, (wallEntity sampleShim "none" w).texture =
        { sampleShim.getTexture "none" with xTiling := 1 / 2, yTiling := 1 / 2 } :=
  ⟨rfl, rfl, [_], _, [_], rfl, rfl,
    extractWalls_default_source sampleShim { staleState with rootHandle := some threeGroupsRoot }
      threeGroupsRoot _ _ [_] [_] rfl rfl rfl rfl⟩


theorem getScene_end_missing (sh : Shim) (path : String) (st : LoaderState)
    (doc : TiXmlDocument) (s : TiXmlElement)
    (hload : sh.LoadFile (sh.getDataDir ++ path) = some doc)
    (hs : TiXmlHandle.FirstChildAsElement (FirstElement doc) "spawn" = some s)
    (he : TiXmlHandle.FirstChildAsElement (FirstElement doc) "end" = none) :
    getScene sh path st =
      ⟨{ st with
          scene := { player := sh.extractPositionAndRotation s {} }
          rootHandle := FirstElement doc },
        some (.runtime_error "No end position defined.")⟩ := by
  unfold getScene
  simp only [hload]
  rw [extractSpawn_some sh _ s (by simpa using hs)]
  simp only [Outcome.andThen]
  rw [extractDoor_none sh _ (by simpa using he)]

theorem getScene_light_missing (sh : Shim) (path : String) (st : LoaderState)
    (doc : TiXmlDocument) (s e : TiXmlElement)
    (hload : sh.LoadFile (sh.getDataDir ++ path) = some doc)
    (hs : TiXmlHandle.FirstChildAsElement (FirstElement doc) "spawn" = some s)
    (he : TiXmlHandle.FirstChildAsElement (FirstElement doc) "end" = some e)
    (hl : TiXmlHandle.FirstChildAsElement (FirstElement doc) "light" = none) :
    getScene sh path st =
      ⟨{ scene :=
            { player := sh.extractPositionAndRotation s ({} : Entity),
              «end» := { sh.extractPositionAndRotation e {} with
                texture := sh.getTexture "Door.png", mesh := sh.getMesh "Door.obj" },
              models := modelsFound sh (FirstElement doc) },
          rootHandle := FirstElement doc,
          requests := st.requests ++ [.texture "Door.png", .mesh "Door.obj"] ++
            modelRequestsFound (FirstElement doc),
          output := st.output },
        some .nullDereference⟩ := by
  unfold getScene
  simp only [hload]
  rw [extractSpawn_some sh _ s (by simpa using hs)]
  simp only [Outcome.andThen]
  rw [extractDoor_some sh _ e (by simpa using he)]
  simp only [extractModels_eq]
  rw [extractLights_none sh _ (by simpa using hl)]
  simp

/-- A loaded document whose trigger lookup finds an element never yields a Scene, and no
trigger is in the scene when the load stops. -/
theorem getScene_trigger_never_returns (sh : Shim) (path : String) (st : LoaderState)
    (doc : TiXmlDocument) (t : TiXmlElement)
    (hload : sh.LoadFile (sh.getDataDir ++ path) = some doc)
    (ht : TiXmlHandle.FirstChildAsElement (FirstElement doc) "trigger" = some t) :
    (getScene sh path st).returned = none ∧
    (getScene sh path st).state.scene.triggers = [] := by
  cases hs : TiXmlHandle.FirstChildAsElement (FirstElement doc) "spawn" with
  | none =>
    rw [getScene_spawn_missing sh path st doc hload hs]
    exact ⟨rfl, rfl⟩
  | some s =>
    cases he : TiXmlHandle.FirstChildAsElement (FirstElement doc) "end" with
    | none =>
      rw [getScene_end_missing sh path st doc s hload hs he]
      exact ⟨rfl, rfl⟩
    | some e =>
      cases hl : TiXmlHandle.FirstChildAsElement (FirstElement doc) "light" with
      | none =>
        rw [getScene_light_missing sh path st doc s e hload hs he hl]
        exact ⟨rfl, rfl⟩
      | some l =>
        rw [getScene_trigger_found sh path st doc s e l t hload hs he hl ht]
        exact ⟨rfl, rfl⟩

/-- A root whose only trigger carries the type "win", a position and a scale. -/
def typedTriggerRoot : TiXmlElement :=
  ⟨"map", [],
    [.element "trigger" [("type", "win")]
      [.element "position" [("x", "1")] [], .element "scale" [("x", "2")] []]], []⟩

/-- C8: when the first trigger element `extractTriggers` processes has no `type` attribute,
`extractTriggers` throws "Trigger must define a type attribute." from whatever state it is
entered in with that root, leaving the state, hence `scene.triggers`, as it was; the load
does not return a Scene, `scene.triggers` is empty when it stops, and the error it stops
with is the trigger error whenever the spawn, end and light lookups succeeded. -/
theorem extractTriggers_untyped (sh : Shim) (path : String) (st : LoaderState)
    (doc : TiXmlDocument) (t : TiXmlElement)
    (hload : sh.LoadFile (sh.getDataDir ++ path) = some doc)
    (ht : TiXmlHandle.FirstChildAsElement (FirstElement doc) "trigger" = some t)
    (_htype : Attribute "type" t.attributes = none) :
    (∀ st' : LoaderState, st'.rootHandle = FirstElement doc →
      (extractTriggers sh st').failure =
        some (.runtime_error "Trigger must define a type attribute.") ∧
      (extractTriggers sh st').state.scene.triggers = st'.scene.triggers ∧
      (extractTriggers sh st').state.requests = st'.requests) ∧
    (getScene sh path st).returned = none ∧
    (getScene sh path st).state.scene.triggers = [] ∧
    (∀ s e l, TiXmlHandle.FirstChildAsElement (FirstElement doc) "spawn" = some s →
      TiXmlHandle.FirstChildAsElement (FirstElement doc) "end" = some e →
      TiXmlHandle.FirstChildAsElement (FirstElement doc) "light" = some l →
      (getScene sh path st).failure =
        some (.runtime_error "Trigger must define a type attribute.")) := by
  refine ⟨?_, (getScene_trigger_never_returns sh path st doc t hload ht).1,
    (getScene_trigger_never_returns sh path st doc t hload ht).2, ?_⟩
  · intro st' hst'
    rw [extractTriggers_some sh st' t (by rw [hst']; exact ht)]
    exact ⟨rfl, rfl, rfl⟩
  · intro s e l hs he hl
    rw [getScene_trigger_found sh path st doc s e l t hload hs he hl ht]

theorem extractTriggers_untyped_witness :
    sampleShim.LoadFile (sampleShim.getDataDir ++ "untyped_trigger.xml") =
      some untypedTriggerDoc ∧
    (TiXmlHandle.FirstChildAsElement (FirstElement untypedTriggerDoc) "trigger").map
      (fun t => Attribute "type" t.attributes) = some none ∧
    (∀ st' : LoaderState, st'.rootHandle = FirstElement untypedTriggerDoc →
      (extractTriggers sampleShim st').failure =
        some (.runtime_error "Trigger must define a type attribute.") ∧
      (extractTriggers sampleShim st').state.scene.triggers = st'.scene.triggers ∧
      (extractTriggers sampleShim st').state.requests = st'.requests) ∧
    (getScene sampleShim "untyped_trigger.xml" staleState).returned = none ∧
    (getScene sampleShim "untyped_trigger.xml" staleState).state.scene.triggers = [] ∧
    (∀ s e l,
      TiXmlHandle.FirstChildAsElement (FirstElement untypedTriggerDoc) "spawn" = some s →
      TiXmlHandle.FirstChildAsElement (FirstElement untypedTriggerDoc) "end" = some e →
      TiXmlHandle.FirstChildAsElement (FirstElement untypedTriggerDoc) "light" = some l →
      (getScene sampleShim "untyped_trigger.xml" staleState).failure =
        some (.runtime_error "Trigger must define a type attribute.")) :=
  ⟨rfl, rfl,
    extractTriggers_untyped sampleShim "untyped_trigger.xml" staleState untypedTriggerDoc
      _ rfl rfl rfl⟩

/-- C9, on the code: the only trigger of `typedTriggerRoot` has the type "win" and both a
position and a scale child, yet `extractTriggers` throws "Trigger must define a type
attribute." and appends nothing. The test before the throw reads the local `triggerType`,
which still holds "none", while the attribute was read into `trigger.type`. -/
theorem extractTriggers_typed_trigger_throws :
    (TiXmlHandle.FirstChildAsElement (some typedTriggerRoot) "trigger").map
      (fun t => (Attribute "type" t.attributes,
        (FirstChildElement "position" t.children).isSome,
        (FirstChildElement "scale" t.children).isSome)) = some (some "win", true, true) ∧
    (extractTriggers sampleShim { staleState with rootHandle := some typedTriggerRoot }).failure =
      some (.runtime_error "Trigger must define a type attribute.") ∧
    (extractTriggers sampleShim
      { staleState with rootHandle := some typedTriggerRoot }).state.scene.triggers = [] := by
  refine ⟨rfl, ?_⟩
  rw [extractTriggers_some sampleShim { staleState with rootHandle := some typedTriggerRoot }
    _ rfl]
  exact ⟨rfl, rfl⟩


/-- A root with two lights: the first carries r, g and b, the second only g. -/
def partialColorRoot : TiXmlElement :=
  ⟨"map", [],
    [.element "light" [("x", "1"), ("r", "1"), ("g", "0.5"), ("b", "0")] [],
     .element "light" [("x", "2"), ("g", "1")] []], []⟩

/-- C11, on the code: the second light of `partialColorRoot` has no r attribute (and no b),
and the first has r = 1. The Light built for the second one has red component 1, the value
left in the local `lightColor` by the first light, not the zero value; its blue component
is 0 only because the first light had b = 0. -/
theorem extractLights_color_carried_over :
    (elementsNamed "light" partialColorRoot.children).map
      (fun e => (Attribute "r" e.attributes, Attribute "g" e.attributes,
        Attribute "b" e.attributes)) =
      [(some "1", some "0.5", some "0"), (none, some "1", none)] ∧
    (extractLights sampleShim { staleState with rootHandle := some partialColorRoot }).failure =
      none ∧
    (extractLights sampleShim
      { staleState with rootHandle := some partialColorRoot }).state.scene.lights =
      staleState.scene.lights ++
        [{ position := ⟨1, 0, 0⟩, color := ⟨1, 1 / 2, 0⟩ },
         { position := ⟨2, 0, 0⟩, color := ⟨1, 1, 0⟩ }] ∧
    ((1 : ℚ) ≠ ({} : Vector3f).x) := by
  refine ⟨rfl, ?_⟩
  rw [extractLights_some sampleShim { staleState with rootHandle := some partialColorRoot }
    _ rfl]
  refine ⟨rfl, ?_, by simp⟩
  simp [partialColorRoot, elementsNamed, lightsOf, QueryFloatAttribute, Attribute, sampleShim,
    sampleVertex, sampleQuery, sampleFloat]


/-- A root with two models: the first names a texture and a mesh, the second names
neither. -/
def bareModelRoot : TiXmlElement :=
  ⟨"map", [],
    [.element "model" [("texture", "crate.png"), ("mesh", "crate.obj"), ("x", "1")] [],
     .element "model" [("x", "2")] []], []⟩

/-- C13, on the code: the second model of `bareModelRoot` has neither a `texture` nor a
`mesh` attribute, and the first has "crate.png" and "crate.obj". For the second model the
loaders are asked for "crate.png" and "crate.obj", the values left in the locals `texture`
and `mesh` by the first model, not for "none", and the model gets that texture and mesh,
which differ from `getTexture("none")` and `getMesh("none")`. -/
theorem extractModels_identifiers_carried_over :
    (elementsNamed "model" bareModelRoot.children).map
      (fun e => (Attribute "texture" e.attributes, Attribute "mesh" e.attributes)) =
      [(some "crate.png", some "crate.obj"), (none, none)] ∧
    (extractModels sampleShim { staleState with rootHandle := some bareModelRoot }).failure =
      none ∧
    (extractModels sampleShim
      { staleState with rootHandle := some bareModelRoot }).state.requests =
      staleState.requests ++
        [.texture "crate.png", .mesh "crate.obj", .texture "crate.png", .mesh "crate.obj"] ∧
    (extractModels sampleShim
      { staleState with rootHandle := some bareModelRoot }).state.scene.models.map
      (fun model => (model.texture, model.mesh)) =
      [(sampleShim.getTexture "crate.png", sampleShim.getMesh "crate.obj"),
       (sampleShim.getTexture "crate.png", sampleShim.getMesh "crate.obj")] ∧
    sampleShim.getTexture "crate.png" ≠ sampleShim.getTexture "none" ∧
    sampleShim.getMesh "crate.obj" ≠ sampleShim.getMesh "none" := by
  refine ⟨rfl, ?_⟩
  rw [extractModels_eq]
  refine ⟨rfl, rfl, rfl, ?_, ?_⟩
  · simp [sampleShim]
    decide
  · simp [sampleShim]
    decide

/-- A root with spawn and end but no light. -/
def noLightRoot : TiXmlElement :=
  ⟨"map", [], [.element "spawn" [("x", "1")] [], .element "end" [("x", "3")] []], []⟩

/-- C14, on the code: `noLightRoot` has no "light" child element; `extractLights` enters the
loop body with the null pointer the lookup gave and uses it, so the call ends in a null
dereference and not in a `std::runtime_error` of the kind `extractSpawn` and `extractDoor`
throw. -/
theorem extractLights_without_light :
    FirstChildElement "light" noLightRoot.children = none ∧
    (extractLights sampleShim { staleState with rootHandle := some noLightRoot }).failure =
      some .nullDereference ∧
    ∀ what, (extractLights sampleShim
      { staleState with rootHandle := some noLightRoot }).failure ≠
        some (.runtime_error what) := by
  refine ⟨rfl, ?_⟩
  rw [extractLights_none sampleShim { staleState with rootHandle := some noLightRoot } rfl]
  exact ⟨rfl, fun what h => by cases h⟩


theorem modelsOf_length (sh : Shim) :
    ∀ (es : List TiXmlElement) (texture mesh : String),
      (modelsOf sh es texture mesh).length = es.length
  | [], _, _ => rfl
  | e :: es, _, _ => by simp [modelsOf, modelsOf_length sh es]

/-- The i-th model built over a chain comes from the i-th element of the chain. -/
theorem modelsOf_get (sh : Shim) :
    ∀ (es : List TiXmlElement) (texture mesh : String) (i : Nat) (e : TiXmlElement),
      es[i]? = some e →
      ∃ model, (modelsOf sh es texture mesh)[i]? = some model ∧
        model.position = (sh.extractPositionAndRotation e {}).position ∧
        model.rotation = (sh.extractPositionAndRotation e {}).rotation ∧
        (∀ t, Attribute "texture" e.attributes = some t → model.texture = sh.getTexture t) ∧
        (∀ m, Attribute "mesh" e.attributes = some m → model.mesh = sh.getMesh m)
  | [], _, _, _, _, h => by simp at h
  | e' :: es, texture, mesh, 0, e, h => by
      simp only [List.getElem?_cons_zero, Option.some.injEq] at h
      subst h
      refine ⟨{ sh.extractPositionAndRotation e' {} with
        texture := sh.getTexture (e'.QueryStringAttribute "texture" texture)
        mesh := sh.getMesh (e'.QueryStringAttribute "mesh" mesh) }, by simp [modelsOf],
        rfl, rfl, ?_, ?_⟩
      · intro t ht
        simp [TiXmlElement.QueryStringAttribute, ht]
      · intro m hm
        simp [TiXmlElement.QueryStringAttribute, hm]
  | e' :: es, texture, mesh, i + 1, e, h => by
      simp only [List.getElem?_cons_succ] at h
      obtain ⟨model, hmodel, hrest⟩ := modelsOf_get sh es
        (e'.QueryStringAttribute "texture" texture) (e'.QueryStringAttribute "mesh" mesh) i e h
      exact ⟨model, by simpa [modelsOf] using hmodel, hrest⟩

/-- A root whose only model comes after a comment reading "model". -/
def commentedModelRoot : TiXmlElement :=
  ⟨"map", [],
    [.other "model",
     .element "model" [("texture", "crate.png"), ("mesh", "crate.obj"), ("x", "1")] []], []⟩

/-- A root with two models, a light in between, each naming a texture and a mesh. -/
def twoModelsRoot : TiXmlElement :=
  ⟨"map", [],
    [.element "model" [("texture", "crate.png"), ("mesh", "crate.obj"), ("x", "1")] [],
     .element "light" [("r", "1")] [],
     .element "model" [("texture", "barrel.png"), ("mesh", "barrel.obj"), ("x", "2")] []],
    []⟩

/-- C12, as stated, fails: the root `commentedModelRoot` has one "model" child element, yet
`extractModels` appends nothing, because the first child node whose value is "model" is a
comment. -/
theorem extractModels_comment_named_model :
    (elementsNamed "model" commentedModelRoot.children).length = 1 ∧
    (extractModels sampleShim
      { staleState with rootHandle := some commentedModelRoot }).state.scene.models =
      staleState.scene.models := by
  refine ⟨rfl, ?_⟩
  rw [extractModels_eq]
  rfl

/-- C12 (amended): for every root, `extractModels` never fails, and a root with no "model"
child element leaves `scene.models` as it was. When the lookup
`rootHandle.FirstChild("model").Element()` is null (no root, no child node whose value is
"model", or the first such node is not an element) nothing is appended. When it finds an
element, exactly one Entity is appended per root-level "model" element, in document order,
other nodes skipped; the i-th one has the position and rotation that
`extractPositionAndRotation` gives for the i-th model element on a fresh entity, and, when
that element has a `texture` (resp. `mesh`) attribute, texture `getTexture` of it (resp.
mesh `getMesh` of it). -/
theorem extractModels_spec (sh : Shim) (st : LoaderState) :
    (extractModels sh st).failure = none ∧
    (TiXmlHandle.FirstChildAsElement st.rootHandle "model" = none →
      (extractModels sh st).state.scene.models = st.scene.models) ∧
    ((∀ root, st.rootHandle = some root → FirstChildElement "model" root.children = none) →
      (extractModels sh st).state.scene.models = st.scene.models) ∧
    (∀ root m, st.rootHandle = some root →
      TiXmlHandle.FirstChildAsElement (some root) "model" = some m →
      ∃ appended : List Entity,
        (extractModels sh st).state.scene.models = st.scene.models ++ appended ∧
        appended.length = root.children.countP (TiXmlNode.isElementNamed "model") ∧
        ∀ (i : Nat) (e : TiXmlElement), (elementsNamed "model" root.children)[i]? = some e →
          ∃ model : Entity, appended[i]? = some model ∧
            model.position = (sh.extractPositionAndRotation e {}).position ∧
            model.rotation = (sh.extractPositionAndRotation e {}).rotation ∧
            (∀ t, Attribute "texture" e.attributes = some t →
              model.texture = sh.getTexture t) ∧
            (∀ m, Attribute "mesh" e.attributes = some m → model.mesh = sh.getMesh m)) := by
  have hnone : TiXmlHandle.FirstChildAsElement st.rootHandle "model" = none →
      (extractModels sh st).state.scene.models = st.scene.models := by
    intro h
    rw [extractModels_eq]
    simp [modelsFound, h]
  refine ⟨by rw [extractModels_eq], hnone,
    fun hno => hnone (FirstChildAsElement_none _ _ hno), ?_⟩
  intro root m hroot hm
  have hchain := FirstChildElement_some _ _ _ (FirstChildAsElement_some root m "model" hm)
  refine ⟨modelsOf sh (elementsNamed "model" root.children) "none" "none", ?_, ?_, ?_⟩
  · rw [extractModels_eq, hroot]
    simp [modelsFound, hm, hchain]
  · rw [modelsOf_length, elementsNamed_length]
  · intro i e hi
    exact modelsOf_get sh _ _ _ i e hi

theorem extractModels_spec_witness :
    TiXmlHandle.FirstChildAsElement (some twoModelsRoot) "model" =
      (elementsNamed "model" twoModelsRoot.children).head? ∧
    (elementsNamed "model" twoModelsRoot.children).map
      (fun e => (Attribute "texture" e.attributes, Attribute "mesh" e.attributes)) =
      [(some "crate.png", some "crate.obj"), (some "barrel.png", some "barrel.obj")] ∧
    ∃ appended : List Entity,
      (extractModels sampleShim
        { staleState with rootHandle := some twoModelsRoot }).state.scene.models =
        staleState.scene.models ++ appended ∧
      appended.length = 2 ∧
      ∃ model : Entity, appended[1]? = some model ∧
        model.texture = sampleShim.getTexture "barrel.png" ∧
        model.mesh = sampleShim.getMesh "barrel.obj" := by
  obtain ⟨appended, happ, hlen, hall⟩ :=
    (extractModels_spec sampleShim { staleState with rootHandle := some twoModelsRoot }).2.2.2
      twoModelsRoot _ rfl rfl
  obtain ⟨model, hmodel, _, _, htexture, hmesh⟩ := hall 1 _ rfl
  exact ⟨rfl, rfl, appended, happ, hlen, model, hmodel, htexture _ rfl, hmesh _ rfl⟩


/-- On a document that loads, whose spawn, end and light lookups succeed and whose trigger
lookup is null, `getScene` returns in the state `afterWalls`, "File loaded." printed. -/
theorem getScene_returns (sh : Shim) (path : String) (st : LoaderState)
    (doc : TiXmlDocument) (s e l : TiXmlElement)
    (hload : sh.LoadFile (sh.getDataDir ++ path) = some doc)
    (hs : TiXmlHandle.FirstChildAsElement (FirstElement doc) "spawn" = some s)
    (he : TiXmlHandle.FirstChildAsElement (FirstElement doc) "end" = some e)
    (hl : TiXmlHandle.FirstChildAsElement (FirstElement doc) "light" = some l)
    (ht : TiXmlHandle.FirstChildAsElement (FirstElement doc) "trigger" = none) :
    getScene sh path st =
      ⟨(afterWalls sh st (FirstElement doc) s e l).print "File loaded.", none⟩ := by
  rw [getScene_to_triggers sh path st doc s e l hload hs he hl]
  rw [extractTriggers_none sh _ (by simpa [afterWalls] using ht)]
  rfl

/-- The failure and the scene a call of `getScene` ends with are functions of the
collaborators and the path alone, and the scene never holds a trigger. -/
theorem getScene_outcome (sh : Shim) (path : String) :
    ∃ (failure : Option Failure) (scene : Scene), scene.triggers = [] ∧
      ∀ st : LoaderState, (getScene sh path st).failure = failure ∧
        (getScene sh path st).state.scene = scene := by
  cases hload : sh.LoadFile (sh.getDataDir ++ path) with
  | none =>
    exact ⟨none, {}, rfl, fun st => by rw [getScene_not_loaded sh path st hload]; exact ⟨rfl, rfl⟩⟩
  | some doc =>
    cases hs : TiXmlHandle.FirstChildAsElement (FirstElement doc) "spawn" with
    | none =>
      exact ⟨_, {}, rfl, fun st => by
        rw [getScene_spawn_missing sh path st doc hload hs]; exact ⟨rfl, rfl⟩⟩
    | some s =>
      cases he : TiXmlHandle.FirstChildAsElement (FirstElement doc) "end" with
      | none =>
        exact ⟨_, _, rfl, fun st => by
          rw [getScene_end_missing sh path st doc s hload hs he]; exact ⟨rfl, rfl⟩⟩
      | some e =>
        cases hl : TiXmlHandle.FirstChildAsElement (FirstElement doc) "light" with
        | none =>
          exact ⟨_, _, rfl, fun st => by
            rw [getScene_light_missing sh path st doc s e hload hs he hl]; exact ⟨rfl, rfl⟩⟩
        | some l =>
          cases ht : TiXmlHandle.FirstChildAsElement (FirstElement doc) "trigger" with
          | none =>
            exact ⟨_, _, rfl, fun st => by
              rw [getScene_returns sh path st doc s e l hload hs he hl ht]; exact ⟨rfl, rfl⟩⟩
          | some t =>
            exact ⟨_, _, rfl, fun st => by
              rw [getScene_trigger_found sh path st doc s e l t hload hs he hl ht]
              exact ⟨rfl, rfl⟩⟩

theorem returned_eq_of (o₁ o₂ : Outcome) (hf : o₁.failure = o₂.failure)
    (hs : o₁.state.scene = o₂.state.scene) : o₁.returned = o₂.returned := by
  unfold Outcome.returned
  rw [hf, hs]

/-- C15: `getScene` is deterministic and independent of leftover state. For every
collaborators and path, a call started with the static members as `st₁` holds them and a
call started with them as `st₂` holds them (for instance as the first call left them) end
the same way: the same failure, or both return, with Scenes that are equal, hence equal in
player, end, lights, walls, triggers and models. -/
theorem getScene_deterministic (sh : Shim) (path : String) (st₁ st₂ : LoaderState) :
    (getScene sh path st₁).failure = (getScene sh path st₂).failure ∧
    (getScene sh path st₁).returned = (getScene sh path st₂).returned ∧
    ((∃ failure, (getScene sh path st₁).failure = some failure ∧
        (getScene sh path st₂).failure = some failure) ∨
      (∃ scene₁ scene₂, (getScene sh path st₁).returned = some scene₁ ∧
        (getScene sh path st₂).returned = some scene₂ ∧
        scene₁.player = scene₂.player ∧ scene₁.«end» = scene₂.«end» ∧
        scene₁.lights = scene₂.lights ∧ scene₁.walls = scene₂.walls ∧
        scene₁.triggers = scene₂.triggers ∧ scene₁.models = scene₂.models)) ∧
    (getScene sh path st₁).returned =
      (getScene sh path (getScene sh path st₂).state).returned := by
  obtain ⟨failure, scene, _, h⟩ := getScene_outcome sh path
  have hf : ∀ st st', (getScene sh path st).failure = (getScene sh path st').failure :=
    fun st st' => by rw [(h st).1, (h st').1]
  have hs : ∀ st st', (getScene sh path st).state.scene = (getScene sh path st').state.scene :=
    fun st st' => by rw [(h st).2, (h st').2]
  refine ⟨hf _ _, returned_eq_of _ _ (hf _ _) (hs _ _), ?_,
    returned_eq_of _ _ (hf _ _) (hs _ _)⟩
  cases hfail : failure with
  | some f =>
    left
    exact ⟨f, by rw [(h st₁).1, hfail], by rw [(h st₂).1, hfail]⟩
  | none =>
    right
    refine ⟨scene, scene, ?_, ?_, rfl, rfl, rfl, rfl, rfl, rfl⟩
    · simp [Outcome.returned, (h st₁).1, (h st₁).2, hfail]
    · simp [Outcome.returned, (h st₂).1, (h st₂).2, hfail]


/-- The six extractors in the order `getScene` calls them. -/
def extractorsInOrder (sh : Shim) : List (LoaderState → Outcome) :=
  [extractSpawn sh, extractDoor sh, extractModels sh, extractLights sh, extractWalls sh,
    extractTriggers sh]

/-- A list of calls made one after the other, each on the state the previous one left,
stopping at the first that fails. -/
def runInOrder : List (LoaderState → Outcome) → LoaderState → Outcome
  | [], st => ⟨st, none⟩
  | f :: fs, st => (f st).andThen (runInOrder fs)

theorem andThen_assoc (o : Outcome) (f g : LoaderState → Outcome) :
    (o.andThen f).andThen g = o.andThen (fun st => (f st).andThen g) := by
  cases o with
  | mk state failure =>
    cases failure with
    | none => rfl
    | some _ => rfl

theorem andThen_of_failure (o : Outcome) (f : LoaderState → Outcome)
    (h : o.failure ≠ none) : o.andThen f = o := by
  cases o with
  | mk state failure =>
    cases failure with
    | none => exact absurd rfl h
    | some _ => rfl

theorem runInOrder_append :
    ∀ (pre rest : List (LoaderState → Outcome)) (st : LoaderState),
      runInOrder (pre ++ rest) st = (runInOrder pre st).andThen (runInOrder rest)
  | [], _, _ => rfl
  | f :: pre, rest, st => by
      simp only [List.cons_append, runInOrder, andThen_assoc]
      congr 1
      funext st'
      exact runInOrder_append pre rest st'

/-- The body of `getScene` for a document that loaded is the six extractors run in order,
then the final print. -/
theorem getScene_runInOrder (sh : Shim) (path : String) (st : LoaderState)
    (doc : TiXmlDocument) (hload : sh.LoadFile (sh.getDataDir ++ path) = some doc) :
    getScene sh path st =
      (runInOrder (extractorsInOrder sh)
        { st with scene := {}, rootHandle := FirstElement doc }).andThen
        fun st => ⟨st.print "File loaded.", none⟩ := by
  unfold getScene
  simp only [hload, extractorsInOrder, runInOrder, andThen_assoc]
  rfl

/-- A map with a spawn and a trigger but no end. -/
def noEndDoc : TiXmlDocument :=
  [.element "map" []
    [.element "spawn" [("x", "1")] [],
     .element "trigger" [] [],
     .element "model" [("texture", "crate.png"), ("mesh", "crate.obj")] []]]

/-- The sample collaborators with `noEndDoc` added to the disk. -/
def orderShim : Shim :=
  { sampleShim with
    LoadFile := fun file => if file = "data/no_end.xml" then some noEndDoc else sampleDisk file }

/-- C16: `getScene` runs spawn, door, models, lights, walls, triggers in this order and
stops at the first failure. For a document that loads: whenever the order splits into the
extractors `pre`, then `f`, then `post`, the extractors of `pre` all return, leaving the
state `st'`, and `f` fails on `st'`, the outcome of `getScene` is the outcome of `f` on `st'`,
so the error is that of `f` and the state is as `f` left it, no extractor of `post` having
run. In particular a root with no spawn fails with the spawn error on the fresh scene,
whatever else is missing, and a root with a spawn and no end fails with the end error, the
scene holding only the player, whatever triggers or models the root has. -/
theorem getScene_first_failure (sh : Shim) (path : String) (st : LoaderState)
    (doc : TiXmlDocument) (hload : sh.LoadFile (sh.getDataDir ++ path) = some doc) :
    (∀ (pre post : List (LoaderState → Outcome)) (f : LoaderState → Outcome)
      (st' : LoaderState), extractorsInOrder sh = pre ++ f :: post →
      runInOrder pre { st with scene := {}, rootHandle := FirstElement doc } = ⟨st', none⟩ →
      (f st').failure ≠ none → getScene sh path st = f st') ∧
    (TiXmlHandle.FirstChildAsElement (FirstElement doc) "spawn" = none →
      (getScene sh path st).failure = some (.runtime_error "No spawn position defined.") ∧
      (getScene sh path st).state.scene = {} ∧
      (getScene sh path st).state.requests = st.requests) ∧
    (∀ s, TiXmlHandle.FirstChildAsElement (FirstElement doc) "spawn" = some s →
      TiXmlHandle.FirstChildAsElement (FirstElement doc) "end" = none →
      (getScene sh path st).failure = some (.runtime_error "No end position defined.") ∧
      (getScene sh path st).state.scene = { player := sh.extractPositionAndRotation s {} } ∧
      (getScene sh path st).state.requests = st.requests) := by
  refine ⟨?_, ?_, ?_⟩
  · intro pre post f st' hsplit hpre hf
    rw [getScene_runInOrder sh path st doc hload, hsplit, runInOrder_append, hpre]
    cases hfail : (f st').failure with
    | none => exact absurd hfail hf
    | some failure => simp [Outcome.andThen, runInOrder, hfail]
  · intro hs
    rw [getScene_spawn_missing sh path st doc hload hs]
    exact ⟨rfl, rfl, rfl⟩
  · intro s hs he
    rw [getScene_end_missing sh path st doc s hload hs he]
    exact ⟨rfl, rfl, rfl⟩

theorem getScene_first_failure_witness :
    orderShim.LoadFile (orderShim.getDataDir ++ "no_end.xml") = some noEndDoc ∧
    (TiXmlHandle.FirstChildAsElement (FirstElement noEndDoc) "end" = none ∧
      (TiXmlHandle.FirstChildAsElement (FirstElement noEndDoc) "trigger").isSome = true) ∧
    extractorsInOrder orderShim =
      [extractSpawn orderShim] ++ extractDoor orderShim ::
        [extractModels orderShim, extractLights orderShim, extractWalls orderShim,
          extractTriggers orderShim] ∧
    getScene orderShim "no_end.xml" staleState =
      extractDoor orderShim
        (extractSpawn orderShim
          { staleState with scene := {}, rootHandle := FirstElement noEndDoc }).state ∧
    (getScene orderShim "no_end.xml" staleState).failure =
      some (.runtime_error "No end position defined.") ∧
    (getScene orderShim "no_end.xml" staleState).state.scene.models = [] :=
  have h := getScene_first_failure orderShim "no_end.xml" staleState noEndDoc rfl
  have hend := h.2.2 _ rfl rfl
  have hdoor : (extractDoor orderShim
      (extractSpawn orderShim
        { staleState with scene := {}, rootHandle := FirstElement noEndDoc }).state).failure ≠
      none := by
    rw [extractDoor_none orderShim
      (extractSpawn orderShim
        { staleState with scene := {}, rootHandle := FirstElement noEndDoc }).state rfl]
    simp
  ⟨rfl, ⟨rfl, rfl⟩, rfl,
    h.1 [extractSpawn orderShim] _ (extractDoor orderShim) _ rfl rfl hdoor,
    hend.1, by rw [hend.2.1]⟩


/-- The trigger as the loop body of `extractTriggers` has it just before
`MeshLoader::getPortalBox(trigger)` is called. -/
def triggerBeforeMesh (sh : Shim) (e : TiXmlElement) : Trigger :=
  { type := e.QueryStringAttribute "type" ({} : Trigger).type
    position := sh.pushAttributeVertexToVector (FirstChildElement "position" e.children)
      ({} : Trigger).position
    scale := sh.pushAttributeVertexToVector (FirstChildElement "scale" e.children)
      ({} : Trigger).scale
    texture := sh.getTexture "redBox.png" }

/-- The trigger the loop body of `extractTriggers` pushes for the element `e`, once past
the test of `triggerType`. -/
def triggerOf (sh : Shim) (e : TiXmlElement) : Trigger :=
  { triggerBeforeMesh sh e with mesh := sh.getPortalBox (triggerBeforeMesh sh e).toEntity }

/-- The loader requests one pass of the trigger loop body makes. -/
def triggerRequests (sh : Shim) (e : TiXmlElement) : List Request :=
  [.texture "redBox.png", .portalBox (triggerBeforeMesh sh e).toEntity]

/-- Were `triggerType` anything but "none", the trigger loop would go through the element
it starts at and every element after it, whatever its tag. -/
theorem triggersLoop_walk (sh : Shim) (triggerType : String) (htype : triggerType ≠ "none") :
    ∀ (n : Nat) (e : TiXmlElement) (st : LoaderState), e.following.length = n →
      triggersLoop sh triggerType e st =
        ⟨{ st with
            scene := { st.scene with
              triggers := st.scene.triggers ++
                (e :: elementsAny e.following).map (triggerOf sh) }
            requests := st.requests ++
              (e :: elementsAny e.following).flatMap (triggerRequests sh) }, none⟩ := by
  intro n
  induction n using Nat.strong_induction_on with
  | _ n ih =>
    intro e st hn
    rw [triggersLoop]
    simp only [htype, if_false]
    split
    · next next h =>
      have hlt := FirstElement_following _ _ h
      rw [ih _ (by omega) next _ rfl]
      rw [FirstElement_some _ _ h]
      simp [triggerOf, triggerBeforeMesh, triggerRequests, LoaderState.requested]
    · next h =>
      rw [(FirstElement_none_iff _).mp h]
      simp [triggerOf, triggerBeforeMesh, triggerRequests, LoaderState.requested]

/-- A root whose trigger, of type "win", is followed by a light and a model. -/
def followedTriggerRoot : TiXmlElement :=
  ⟨"map", [],
    [.element "trigger" [("type", "win")]
       [.element "position" [("x", "1")] [], .element "scale" [("x", "2")] []],
     .element "light" [("r", "1")] [],
     .element "model" [("mesh", "crate.obj")] []], []⟩

/-- C17, on the code: the first trigger of `followedTriggerRoot` is followed by k = 2
sibling elements, a light and a model. `extractTriggers` throws in the pass over the first
element and no trigger is appended, where the claim has k + 1 = 3 elements processed. The
walk itself is as the claim says: for any value of the local `triggerType` other than
"none" the loop appends one trigger for the element it starts at and one for every element
after it, whatever the tag, three on this root. -/
theorem extractTriggers_walk_cut_short :
    (TiXmlHandle.FirstChildAsElement (some followedTriggerRoot) "trigger").map
      (fun t => (elementsAny t.following).map (fun e => e.value)) = some ["light", "model"] ∧
    (extractTriggers sampleShim
      { staleState with rootHandle := some followedTriggerRoot }).failure =
      some (.runtime_error "Trigger must define a type attribute.") ∧
    (extractTriggers sampleShim
      { staleState with rootHandle := some followedTriggerRoot }).state.scene.triggers = [] ∧
    ∀ (sh : Shim) (triggerType : String) (st : LoaderState) (t : TiXmlElement),
      triggerType ≠ "none" →
      (triggersLoop sh triggerType t st).failure = none ∧
      (triggersLoop sh triggerType t st).state.scene.triggers.length =
        st.scene.triggers.length + ((elementsAny t.following).length + 1) := by
  refine ⟨rfl, ?_⟩
  rw [extractTriggers_some sampleShim
    { staleState with rootHandle := some followedTriggerRoot } _ rfl]
  refine ⟨rfl, rfl, ?_⟩
  intro sh triggerType st t htype
  rw [triggersLoop_walk sh triggerType htype _ t st rfl]
  simp

/-- A root whose only trigger comes after a comment reading "trigger". -/
def commentedTriggerRoot : TiXmlElement :=
  ⟨"map", [], [.other "trigger", .element "trigger" [("type", "win")] []], []⟩

/-- C18, as stated, fails: the root `commentedTriggerRoot` has a "trigger" child element,
yet `extractTriggers` returns without failing, because the first child node whose value is
"trigger" is a comment. -/
theorem extractTriggers_comment_named_trigger :
    (FirstChildElement "trigger" commentedTriggerRoot.children).isSome = true ∧
    (extractTriggers sampleShim
      { staleState with rootHandle := some commentedTriggerRoot }).failure = none := by
  refine ⟨rfl, ?_⟩
  rw [extractTriggers_none sampleShim
    { staleState with rootHandle := some commentedTriggerRoot } rfl]

/-- C18 (amended): `extractTriggers` fails, with "Trigger must define a type attribute.",
if and only if the lookup `rootHandle.FirstChild("trigger").Element()` finds an element
(the first child node of the root whose value is "trigger" is an element), whatever the
`type` attribute of that element: the test reads the local `triggerType`, which holds
"none" throughout. It returns, leaving the state as it was, when the lookup is null, in
particular when the root has no "trigger" child element. Consequently `scene.triggers` is
empty in every Scene that `getScene` returns. -/
theorem extractTriggers_fails_iff (sh : Shim) (st : LoaderState) :
    ((extractTriggers sh st).failure =
        some (.runtime_error "Trigger must define a type attribute.") ↔
      ∃ t, TiXmlHandle.FirstChildAsElement st.rootHandle "trigger" = some t) ∧
    ((extractTriggers sh st).failure = none ↔
      TiXmlHandle.FirstChildAsElement st.rootHandle "trigger" = none) ∧
    ((∀ root, st.rootHandle = some root → FirstChildElement "trigger" root.children = none) →
      extractTriggers sh st = ⟨st, none⟩) ∧
    (extractTriggers sh st).state.scene.triggers = st.scene.triggers ∧
    (∀ (path : String) (st₀ : LoaderState) (scene : Scene),
      (getScene sh path st₀).returned = some scene → scene.triggers = []) := by
  refine ⟨?_, ?_, ?_, ?_, ?_⟩
  · cases h : TiXmlHandle.FirstChildAsElement st.rootHandle "trigger" with
    | none => simp [extractTriggers_none sh st h]
    | some t => simp [extractTriggers_some sh st t h]
  · cases h : TiXmlHandle.FirstChildAsElement st.rootHandle "trigger" with
    | none => simp [extractTriggers_none sh st h]
    | some t => simp [extractTriggers_some sh st t h]
  · intro hno
    exact extractTriggers_none sh st (FirstChildAsElement_none _ _ hno)
  · cases h : TiXmlHandle.FirstChildAsElement st.rootHandle "trigger" with
    | none => rw [extractTriggers_none sh st h]
    | some t => rw [extractTriggers_some sh st t h]
  · intro path st₀ scene hret
    obtain ⟨failure, scene', htriggers, h⟩ := getScene_outcome sh path
    unfold Outcome.returned at hret
    split at hret
    · simp only [Option.some.injEq] at hret
      rw [← hret, (h st₀).2]
      exact htriggers
    · cases hret

theorem extractTriggers_fails_iff_witness :
    (∃ t, TiXmlHandle.FirstChildAsElement (some typedTriggerRoot) "trigger" = some t ∧
      Attribute "type" t.attributes = some "win") ∧
    (extractTriggers sampleShim { staleState with rootHandle := some typedTriggerRoot }).failure =
      some (.runtime_error "Trigger must define a type attribute.") ∧
    (getScene sampleShim "plain.xml" staleState).returned.map (fun scene => scene.triggers) =
      some [] := by
  refine ⟨⟨_, rfl, rfl⟩, ?_, ?_⟩
  · exact (extractTriggers_fails_iff sampleShim
      { staleState with rootHandle := some typedTriggerRoot }).1.mpr ⟨_, rfl⟩
  · cases hret : (getScene sampleShim "plain.xml" staleState).returned with
    | none =>
      rw [getScene_returns sampleShim "plain.xml" staleState plainDoc _ _ _ rfl rfl rfl rfl rfl]
        at hret
      cases hret
    | some scene =>
      have := (extractTriggers_fails_iff sampleShim staleState).2.2.2.2
        "plain.xml" staleState scene hret
      simp [this]

end glPortal
